import Mathlib

/-! # vku (src/vku.hpp): a shallow embedding and its verified properties

Opaque driver handles (`VkDevice`, `VkInstance`, `VkSemaphore`, ...) are natural
numbers, `0` standing for `nullptr` / `VK_NULL_HANDLE`.  `uint32_t` values are
natural numbers, reduced modulo `2^32` wherever the source can wrap around.
A `VkResult` is an integer, `0` being `VK_SUCCESS`.  Every call the code makes to
the driver is either an explicit argument (what the driver answers) or an entry
of an explicit log (what the code asked for).
-/

namespace vku

/-! ## Handles, results, exceptions -/

/-- A `VkResult` status code; `0` is `VK_SUCCESS`, and `if (err)` tests `err ≠ 0`. -/
abbrev VkResult := Int

/-- The exceptions thrown by the code: `vku::error(err)`, which carries the driver
status, and a plain `std::runtime_error(msg)`. -/
inductive Exception where
  | error (err : VkResult)
  | runtime_error (msg : String)
deriving DecidableEq, Repr

/-- The handle types `resource<VulkanType>` is instantiated with in vku.hpp. -/
inductive VulkanType where
  | VkInstance
  | VkSwapchainKHR
  | VkCommandBuffer
  | VkSemaphore
  | VkQueue
deriving DecidableEq, Repr

/-! ## `template <class VulkanType> class resource` (lines 58-100) -/

/-- One invocation `destroy<VulkanType>(dev, value)` of the destructor function
associated with a handle type. -/
structure DestroyCall where
  type : VulkanType
  dev : Nat
  value : Nat
deriving DecidableEq, Repr

/-- The data members of `resource<VulkanType>` (lines 97-99). -/
structure resource (T : VulkanType) where
  value_ : Nat
  ownsResource : Bool
  dev_ : Nat
deriving DecidableEq, Repr

/-- What the driver answers to a creation call: the status it returns and the
handle it leaves in the output parameter (which the code initialises to `nullptr`,
so `handle = 0` when the driver writes nothing). -/
structure CreateReply where
  err : VkResult
  handle : Nat
deriving DecidableEq, Repr

/-- The factory `create<VulkanType>(dev)`: the primary template (line 58) and the
`VkQueue` specialisation (line 1319) return `nullptr`; `create<VkInstance>`
(lines 102-146) calls `vkCreateInstance` and returns `inst` without looking at the
status; `create<VkSemaphore>` (lines 1293-1302) calls `vkCreateSemaphore` and
throws `error(err)` on a non-zero status. -/
def create (T : VulkanType) (_dev : Nat) (reply : CreateReply) : Except Exception Nat :=
  match T with
  | .VkInstance => .ok reply.handle
  | .VkSemaphore => if reply.err ≠ 0 then .error (.error reply.err) else .ok reply.handle
  | .VkQueue => .ok 0
  | .VkSwapchainKHR => .ok 0
  | .VkCommandBuffer => .ok 0

namespace resource

variable {T : VulkanType}

/-- The constructor `resource()` (lines 65-66). -/
def ctorDefault : resource T :=
  { value_ := 0, ownsResource := false, dev_ := 0 }

/-- The constructor `resource(VulkanType value, VkDevice dev = nullptr)` (lines 68-69). -/
def ctorValue (value : Nat) (dev : Nat) : resource T :=
  { value_ := value, ownsResource := false, dev_ := dev }

/-- The constructor `resource(VkDevice dev = nullptr)` (lines 71-72): the handle is
whatever `create<VulkanType>(dev)` returns; an exception thrown by the factory
leaves no object. -/
def ctorDevice (T : VulkanType) (dev : Nat) (reply : CreateReply) : Except Exception (resource T) :=
  match create T dev reply with
  | .error e => .error e
  | .ok v => .ok { value_ := v, ownsResource := true, dev_ := dev }

/-- The move assignment `void operator=(resource &&rhs)` (lines 74-81) for two
distinct objects: returns the new `*this`, the new `rhs`, and the destroy log. -/
def moveAssign (self rhs : resource T) (log : List DestroyCall) :
    resource T × resource T × List DestroyCall :=
  let log := if self.value_ ≠ 0 ∧ self.ownsResource = true
    then log ++ [{ type := T, dev := self.dev_, value := self.value_ }] else log
  let self : resource T := { self with value_ := rhs.value_ }
  let self : resource T := { self with dev_ := rhs.dev_ }
  let self : resource T := { self with ownsResource := rhs.ownsResource }
  let rhs : resource T := { rhs with value_ := 0 }
  let rhs : resource T := { rhs with ownsResource := false }
  (self, rhs, log)

/-- The destructor `~resource()` (lines 83-85): only the log changes, the object
is gone afterwards. -/
def dtor (self : resource T) (log : List DestroyCall) : List DestroyCall :=
  if self.value_ ≠ 0 ∧ self.ownsResource = true
  then log ++ [{ type := T, dev := self.dev_, value := self.value_ }] else log

/-- The accessor `get()` (line 91), also the conversion `operator VulkanType()`. -/
def get (self : resource T) : Nat := self.value_

/-- The accessor `dev()` (line 92). -/
def dev (self : resource T) : Nat := self.dev_

/-- The setter `set(value, owns)` (line 93). -/
def set (self : resource T) (value : Nat) (owns : Bool) : resource T :=
  { self with value_ := value, ownsResource := owns }

/-- The method `clear()` (line 95). -/
def clear (self : resource T) (log : List DestroyCall) : resource T × List DestroyCall :=
  let log := if self.value_ ≠ 0 ∧ self.ownsResource = true
    then log ++ [{ type := T, dev := self.dev_, value := self.value_ }] else log
  let self : resource T := { self with value_ := 0 }
  let self : resource T := { self with ownsResource := false }
  (self, log)

end resource

/-! ## A population of wrappers of one handle type

The ownership discipline of `resource` concerns several objects at once, so the
objects live in a store indexed by their order of construction.  A destroyed object
leaves `none` behind: its index is never reused. -/

/-- The wrapper objects constructed so far (`none`: already destroyed) and the
`destroy<VulkanType>` calls made so far. -/
structure Heap (T : VulkanType) where
  objs : List (Option (resource T))
  log : List DestroyCall
deriving DecidableEq, Repr

/-- The operations a program performs on the wrappers of a store. `ctorDevice`
carries what the driver answers to the factory's creation call. -/
inductive Op where
  | ctorDefault
  | ctorValue (value : Nat) (dev : Nat)
  | ctorDevice (dev : Nat) (reply : CreateReply)
  | moveAssign (i j : Nat)
  | clear (i : Nat)
  | dtor (i : Nat)
deriving DecidableEq, Repr

namespace Heap

variable {T : VulkanType}

/-- The live object at index `i`, if any. -/
def obj (h : Heap T) (i : Nat) : Option (resource T) := (h.objs[i]?).join

/-- One operation, run with the member functions of `resource`. The result is
`none` when the operation names an object that does not exist, or is a
move-assignment of an object to itself. A factory that throws constructs nothing. -/
def step (h : Heap T) : Op → Option (Heap T)
  | .ctorDefault => some { h with objs := h.objs ++ [some resource.ctorDefault] }
  | .ctorValue value dev => some { h with objs := h.objs ++ [some (resource.ctorValue value dev)] }
  | .ctorDevice dev reply =>
    match resource.ctorDevice T dev reply with
    | .error _ => some h
    | .ok r => some { h with objs := h.objs ++ [some r] }
  | .moveAssign i j =>
    if i = j then none
    else
      match h.obj i, h.obj j with
      | some a, some b =>
        some { objs := (h.objs.set i (some (a.moveAssign b h.log).1)).set j
                 (some (a.moveAssign b h.log).2.1),
               log := (a.moveAssign b h.log).2.2 }
      | _, _ => none
  | .clear i =>
    match h.obj i with
    | some a => some { objs := h.objs.set i (some (a.clear h.log).1), log := (a.clear h.log).2 }
    | none => none
  | .dtor i =>
    match h.obj i with
    | some a => some { objs := h.objs.set i none, log := a.dtor h.log }
    | none => none

/-- The handle a factory construction would put in the new wrapper, if the
operation is a factory construction that does not throw. -/
def created (T : VulkanType) : Op → Option Nat
  | .ctorDevice dev reply =>
    match resource.ctorDevice T dev reply with
    | .error _ => none
    | .ok r => some r.value_
  | _ => none

end Heap

/-! ## `class device` (lines 152-205) -/

/-- The struct `VkMemoryType` of vulkan.h. -/
structure VkMemoryType where
  propertyFlags : Nat
  heapIndex : Nat
deriving DecidableEq, Repr

/-- The part of `VkPhysicalDeviceMemoryProperties` the code reads: the array
`memoryTypes[VK_MAX_MEMORY_TYPES]`, of 32 entries, as filled in by
`vkGetPhysicalDeviceMemoryProperties`. Only the indices `0..31` are ever read. -/
structure VkPhysicalDeviceMemoryProperties where
  memoryTypes : Nat → VkMemoryType

/-- The loop of `device::getMemoryType` (lines 161-168) from index `i` on, with
`n = 32 - i` iterations left. `1<<i` is a 32-bit value. -/
def device.getMemoryType.loop (deviceMemoryProperties : VkPhysicalDeviceMemoryProperties)
    (typeBits properties : Nat) : Nat → Nat → Nat
  | 0, _ => 0xFFFFFFFF
  | n + 1, i =>
    if typeBits &&& ((1 <<< i) % 2 ^ 32) ≠ 0 then
      if (deviceMemoryProperties.memoryTypes i).propertyFlags &&& properties = properties then i
      else device.getMemoryType.loop deviceMemoryProperties typeBits properties n (i + 1)
    else device.getMemoryType.loop deviceMemoryProperties typeBits properties n (i + 1)

/-- The method `device::getMemoryType(typeBits, properties)` (lines 157-169), given the
memory properties the driver reports for the physical device. -/
def device.getMemoryType (deviceMemoryProperties : VkPhysicalDeviceMemoryProperties)
    (typeBits properties : Nat) : Nat :=
  device.getMemoryType.loop deviceMemoryProperties typeBits properties 32 0

/-- Modelled from the spec: the enumerators of `VkFormat` (declared in
vulkan/vulkan.h, which is not under src/) that vku.hpp names: the "undefined"
format, the colour format of the swapchain and the five depth formats. -/
inductive VkFormat where
  | VK_FORMAT_UNDEFINED
  | VK_FORMAT_B8G8R8A8_UNORM
  | VK_FORMAT_D16_UNORM
  | VK_FORMAT_D32_SFLOAT
  | VK_FORMAT_D16_UNORM_S8_UINT
  | VK_FORMAT_D24_UNORM_S8_UINT
  | VK_FORMAT_D32_SFLOAT_S8_UINT
deriving DecidableEq, Repr

/-- The struct `VkFormatProperties` of vulkan.h, three feature-flag words. -/
structure VkFormatProperties where
  linearTilingFeatures : Nat
  optimalTilingFeatures : Nat
  bufferFeatures : Nat
deriving DecidableEq, Repr

/-- Modelled from the spec: the flag bit `VK_FORMAT_FEATURE_DEPTH_STENCIL_ATTACHMENT_BIT`
of vulkan/vulkan.h (not under src/), "depth-stencil-attachment support". -/
def VK_FORMAT_FEATURE_DEPTH_STENCIL_ATTACHMENT_BIT : Nat := 0x00000200

/-- The array `depthFormats` of `device::getSupportedDepthFormat` (lines 175-181). -/
def device.depthFormats : List VkFormat :=
  [ .VK_FORMAT_D32_SFLOAT_S8_UINT,
    .VK_FORMAT_D32_SFLOAT,
    .VK_FORMAT_D24_UNORM_S8_UINT,
    .VK_FORMAT_D16_UNORM_S8_UINT,
    .VK_FORMAT_D16_UNORM ]

/-- The loop of `device::getSupportedDepthFormat` (lines 183-193) over the formats
still to try; `formatProps` is what `vkGetPhysicalDeviceFormatProperties` reports. -/
def device.getSupportedDepthFormat.loop (formatProps : VkFormat → VkFormatProperties) :
    List VkFormat → VkFormat
  | [] => .VK_FORMAT_UNDEFINED
  | format :: rest =>
    if (formatProps format).optimalTilingFeatures &&&
        VK_FORMAT_FEATURE_DEPTH_STENCIL_ATTACHMENT_BIT ≠ 0 then format
    else device.getSupportedDepthFormat.loop formatProps rest

/-- The method `device::getSupportedDepthFormat()` (lines 171-194). -/
def device.getSupportedDepthFormat (formatProps : VkFormat → VkFormatProperties) : VkFormat :=
  device.getSupportedDepthFormat.loop formatProps device.depthFormats

/-- The data members of `class device` (lines 203-204). -/
structure device where
  dev : Nat
  physicalDevice_ : Nat
deriving DecidableEq, Repr

/-! ## `class swapChain` (lines 307-458) -/

/-- Modelled from the spec: the enumerators of `VkPresentModeKHR` (declared in
vulkan/vulkan.h, which is not under src/): immediate, mailbox, fifo, and the
relaxed fifo mode, which the code never names. -/
inductive VkPresentModeKHR where
  | VK_PRESENT_MODE_IMMEDIATE_KHR
  | VK_PRESENT_MODE_MAILBOX_KHR
  | VK_PRESENT_MODE_FIFO_KHR
  | VK_PRESENT_MODE_FIFO_RELAXED_KHR
deriving DecidableEq, Repr

/-- The struct `VkExtent2D` of vulkan.h, two `uint32_t`. -/
structure VkExtent2D where
  width : Nat
  height : Nat
deriving DecidableEq, Repr

/-- The struct `VkSurfaceCapabilitiesKHR` of vulkan.h, as filled in by
`vkGetPhysicalDeviceSurfaceCapabilitiesKHR`; the counts, extents and flag words
are `uint32_t`. -/
structure VkSurfaceCapabilitiesKHR where
  minImageCount : Nat
  maxImageCount : Nat
  currentExtent : VkExtent2D
  minImageExtent : VkExtent2D
  maxImageExtent : VkExtent2D
  maxImageArrayLayers : Nat
  supportedTransforms : Nat
  currentTransform : Nat
  supportedCompositeAlpha : Nat
  supportedUsageFlags : Nat
deriving DecidableEq, Repr

/-- The fields of `VkSwapchainCreateInfoKHR` the constructor fills in (lines 382-399);
`sType` is the constant tag and `pNext`, `flags`, `pQueueFamilyIndices` stay null. -/
structure VkSwapchainCreateInfoKHR where
  surface : Nat
  minImageCount : Nat
  imageFormat : VkFormat
  imageColorSpace : Nat
  imageExtent : VkExtent2D
  imageArrayLayers : Nat
  imageUsage : Nat
  imageSharingMode : Nat
  queueFamilyIndexCount : Nat
  preTransform : Nat
  compositeAlpha : Nat
  presentMode : VkPresentModeKHR
  clipped : Bool
  oldSwapchain : Nat
deriving DecidableEq, Repr

/-- Modelled from the spec: the flag bit `VK_SURFACE_TRANSFORM_IDENTITY_BIT_KHR` of
vulkan/vulkan.h (not under src/), the "identity" pre-transform. -/
def VK_SURFACE_TRANSFORM_IDENTITY_BIT_KHR : Nat := 0x00000001

/-- Modelled from the spec: the enumerator `VK_COLORSPACE_SRGB_NONLINEAR_KHR` of
vulkan/vulkan.h (not under src/). -/
def VK_COLORSPACE_SRGB_NONLINEAR_KHR : Nat := 0

/-- Modelled from the spec: the flag bit `VK_IMAGE_USAGE_COLOR_ATTACHMENT_BIT` of
vulkan/vulkan.h (not under src/). -/
def VK_IMAGE_USAGE_COLOR_ATTACHMENT_BIT : Nat := 0x00000010

/-- Modelled from the spec: the flag bit `VK_COMPOSITE_ALPHA_OPAQUE_BIT_KHR` of
vulkan/vulkan.h (not under src/). -/
def VK_COMPOSITE_ALPHA_OPAQUE_BIT_KHR : Nat := 0x00000001

/-- The data members of `class swapChain`: the base `resource<VkSwapchainKHR>`
and lines 440-446. -/
structure swapChain where
  toResource : resource .VkSwapchainKHR
  width_ : Nat
  height_ : Nat
  swapchainImages : List Nat
  swapchainViews : List Nat
deriving DecidableEq, Repr

/-- What the driver answers to the calls of the constructor, in the order they are
made: the surface capabilities query, the two present-mode queries (the count, then
the modes, `presentModeCount` being the length of the list) and
`vkCreateSwapchainKHR`. -/
structure SurfaceReplies where
  capsErr : VkResult
  surfCaps : VkSurfaceCapabilitiesKHR
  countErr : VkResult
  modesErr : VkResult
  presentModes : List VkPresentModeKHR
  createChain : CreateReply
deriving DecidableEq, Repr

namespace swapChain

/-- The extent block of the constructor (lines 333-348): the values it leaves in
`swapchainExtent`, `width_` and `height_`. The comparison `== -1` of a `uint32_t`
is a comparison with `0xFFFFFFFF`. -/
def swapchainExtent (width height : Nat) (surfCaps : VkSurfaceCapabilitiesKHR) :
    VkExtent2D × Nat × Nat :=
  if surfCaps.currentExtent.width = 0xFFFFFFFF then
    ({ width := width, height := height }, width, height)
  else
    (surfCaps.currentExtent, surfCaps.currentExtent.width, surfCaps.currentExtent.height)

/-- The present-mode loop of the constructor (lines 353-364) over the modes not yet
visited, `swapchainPresentMode` being the mode chosen so far. -/
def swapchainPresentMode.loop : VkPresentModeKHR → List VkPresentModeKHR → VkPresentModeKHR
  | swapchainPresentMode, [] => swapchainPresentMode
  | swapchainPresentMode, mode :: rest =>
    if mode = .VK_PRESENT_MODE_MAILBOX_KHR then .VK_PRESENT_MODE_MAILBOX_KHR
    else if swapchainPresentMode ≠ .VK_PRESENT_MODE_MAILBOX_KHR ∧
        mode = .VK_PRESENT_MODE_IMMEDIATE_KHR then
      swapchainPresentMode.loop .VK_PRESENT_MODE_IMMEDIATE_KHR rest
    else swapchainPresentMode.loop swapchainPresentMode rest

/-- The value of `swapchainPresentMode` after the loop (lines 350-364). -/
def swapchainPresentMode (presentModes : List VkPresentModeKHR) : VkPresentModeKHR :=
  swapchainPresentMode.loop .VK_PRESENT_MODE_FIFO_KHR presentModes

/-- The value of `desiredNumberOfSwapchainImages` (lines 366-371), a `uint32_t`. -/
def desiredNumberOfSwapchainImages (surfCaps : VkSurfaceCapabilitiesKHR) : Nat :=
  let desiredNumberOfSwapchainImages := (surfCaps.minImageCount + 1) % 2 ^ 32
  if surfCaps.maxImageCount > 0 ∧ desiredNumberOfSwapchainImages > surfCaps.maxImageCount then
    surfCaps.maxImageCount
  else desiredNumberOfSwapchainImages

/-- The value of `preTransform` (lines 373-380). -/
def preTransform (surfCaps : VkSurfaceCapabilitiesKHR) : Nat :=
  if surfCaps.supportedTransforms &&& VK_SURFACE_TRANSFORM_IDENTITY_BIT_KHR ≠ 0 then
    VK_SURFACE_TRANSFORM_IDENTITY_BIT_KHR
  else surfCaps.currentTransform

/-- The creation request `swapchainCI` handed to `vkCreateSwapchainKHR`
(lines 382-399). -/
def swapchainCI (oldSwapchain : Nat) (width height surface : Nat)
    (surfCaps : VkSurfaceCapabilitiesKHR) (presentModes : List VkPresentModeKHR) :
    VkSwapchainCreateInfoKHR :=
  { surface := surface
    minImageCount := desiredNumberOfSwapchainImages surfCaps
    imageFormat := .VK_FORMAT_B8G8R8A8_UNORM
    imageColorSpace := VK_COLORSPACE_SRGB_NONLINEAR_KHR
    imageExtent := { width := (swapchainExtent width height surfCaps).1.width,
                     height := (swapchainExtent width height surfCaps).1.height }
    imageUsage := VK_IMAGE_USAGE_COLOR_ATTACHMENT_BIT
    preTransform := preTransform surfCaps
    imageArrayLayers := 1
    imageSharingMode := 0
    queueFamilyIndexCount := 0
    presentMode := swapchainPresentMode presentModes
    oldSwapchain := oldSwapchain
    clipped := true
    compositeAlpha := VK_COMPOSITE_ALPHA_OPAQUE_BIT_KHR }

/-- The constructor `swapChain(dev, width, height, surface, buf)` (lines 314-404) up
to and including `set(res, true)`, that is, everything before the final call
`build_images(buf)`. The base is built by `resource(dev)`, whose factory for
`VkSwapchainKHR` is the primary template and makes no driver call. Returns the
object and the creation request that was sent. -/
def ctorCreate (dev : device) (width height surface : Nat) (replies : SurfaceReplies) :
    Except Exception (swapChain × VkSwapchainCreateInfoKHR) :=
  match resource.ctorDevice .VkSwapchainKHR dev.dev { err := 0, handle := 0 } with
  | .error e => .error e
  | .ok base =>
    let oldSwapchain := base.get
    if replies.capsErr ≠ 0 then .error (.error replies.capsErr)
    else if replies.countErr ≠ 0 then .error (.error replies.countErr)
    else if replies.modesErr ≠ 0 then .error (.error replies.modesErr)
    else
      let extent := swapchainExtent width height replies.surfCaps
      let ci := swapchainCI oldSwapchain width height surface replies.surfCaps replies.presentModes
      if replies.createChain.err ≠ 0 then .error (.error replies.createChain.err)
      else
        .ok ({ toResource := base.set replies.createChain.handle true
               width_ := extent.2.1
               height_ := extent.2.2
               swapchainImages := []
               swapchainViews := [] }, ci)

/-- The accessor `width()` (line 433). -/
def width (self : swapChain) : Nat := self.width_

/-- The accessor `height()` (line 434). -/
def height (self : swapChain) : Nat := self.height_

end swapChain

/-! ## `class error` (lines 24-56) -/

/-- Modelled from the spec: the status codes of `VkResult` that vku.hpp names, with the
values they have in vulkan/vulkan.h (which is not under src/). A `switch` over them
compiles only because they are pairwise different. -/
def VK_SUCCESS : VkResult := 0

/-- Modelled from the spec: see `VK_SUCCESS`. -/
def VK_NOT_READY : VkResult := 1

/-- Modelled from the spec: see `VK_SUCCESS`. -/
def VK_TIMEOUT : VkResult := 2

/-- Modelled from the spec: see `VK_SUCCESS`. -/
def VK_EVENT_SET : VkResult := 3

/-- Modelled from the spec: see `VK_SUCCESS`. -/
def VK_EVENT_RESET : VkResult := 4

/-- Modelled from the spec: see `VK_SUCCESS`. -/
def VK_INCOMPLETE : VkResult := 5

/-- Modelled from the spec: see `VK_SUCCESS`. -/
def VK_ERROR_OUT_OF_HOST_MEMORY : VkResult := -1

/-- Modelled from the spec: see `VK_SUCCESS`. -/
def VK_ERROR_OUT_OF_DEVICE_MEMORY : VkResult := -2

/-- Modelled from the spec: see `VK_SUCCESS`. -/
def VK_ERROR_INITIALIZATION_FAILED : VkResult := -3

/-- Modelled from the spec: see `VK_SUCCESS`. -/
def VK_ERROR_DEVICE_LOST : VkResult := -4

/-- Modelled from the spec: see `VK_SUCCESS`. -/
def VK_ERROR_MEMORY_MAP_FAILED : VkResult := -5

/-- Modelled from the spec: see `VK_SUCCESS`. -/
def VK_ERROR_LAYER_NOT_PRESENT : VkResult := -6

/-- Modelled from the spec: see `VK_SUCCESS`. -/
def VK_ERROR_EXTENSION_NOT_PRESENT : VkResult := -7

/-- Modelled from the spec: see `VK_SUCCESS`. -/
def VK_ERROR_FEATURE_NOT_PRESENT : VkResult := -8

/-- Modelled from the spec: see `VK_SUCCESS`. -/
def VK_ERROR_INCOMPATIBLE_DRIVER : VkResult := -9

/-- Modelled from the spec: see `VK_SUCCESS`. -/
def VK_ERROR_TOO_MANY_OBJECTS : VkResult := -10

/-- Modelled from the spec: see `VK_SUCCESS`. -/
def VK_ERROR_FORMAT_NOT_SUPPORTED : VkResult := -11

/-- Modelled from the spec: see `VK_SUCCESS`. -/
def VK_ERROR_SURFACE_LOST_KHR : VkResult := -1000000000

/-- Modelled from the spec: see `VK_SUCCESS`. -/
def VK_ERROR_NATIVE_WINDOW_IN_USE_KHR : VkResult := -1000000001

/-- Modelled from the spec: see `VK_SUCCESS`. -/
def VK_SUBOPTIMAL_KHR : VkResult := 1000001003

/-- Modelled from the spec: see `VK_SUCCESS`. -/
def VK_ERROR_OUT_OF_DATE_KHR : VkResult := -1000001004

/-- Modelled from the spec: see `VK_SUCCESS`. -/
def VK_ERROR_INCOMPATIBLE_DISPLAY_KHR : VkResult := -1000003001

/-- Modelled from the spec: see `VK_SUCCESS`. -/
def VK_ERROR_VALIDATION_FAILED_EXT : VkResult := -1000011001

/-- The private member `error::what(VkResult err)` (lines 25-52): the `switch`, case by
case in the order of the source, with its `default`. -/
def error.what (err : VkResult) : String :=
  if err = VK_SUCCESS then "VK_SUCCESS"
  else if err = VK_NOT_READY then "VK_NOT_READY"
  else if err = VK_TIMEOUT then "VK_TIMEOUT"
  else if err = VK_EVENT_SET then "VK_EVENT_SET"
  else if err = VK_EVENT_RESET then "VK_EVENT_RESET"
  else if err = VK_INCOMPLETE then "VK_INCOMPLETE"
  else if err = VK_ERROR_OUT_OF_HOST_MEMORY then "VK_ERROR_OUT_OF_HOST_MEMORY"
  else if err = VK_ERROR_OUT_OF_DEVICE_MEMORY then "VK_ERROR_OUT_OF_DEVICE_MEMORY"
  else if err = VK_ERROR_INITIALIZATION_FAILED then "VK_ERROR_INITIALIZATION_FAILED"
  else if err = VK_ERROR_DEVICE_LOST then "VK_ERROR_DEVICE_LOST"
  else if err = VK_ERROR_MEMORY_MAP_FAILED then "VK_ERROR_MEMORY_MAP_FAILED"
  else if err = VK_ERROR_LAYER_NOT_PRESENT then "VK_ERROR_LAYER_NOT_PRESENT"
  else if err = VK_ERROR_EXTENSION_NOT_PRESENT then "VK_ERROR_EXTENSION_NOT_PRESENT"
  else if err = VK_ERROR_FEATURE_NOT_PRESENT then "VK_ERROR_FEATURE_NOT_PRESENT"
  else if err = VK_ERROR_INCOMPATIBLE_DRIVER then "VK_ERROR_INCOMPATIBLE_DRIVER"
  else if err = VK_ERROR_TOO_MANY_OBJECTS then "VK_ERROR_TOO_MANY_OBJECTS"
  else if err = VK_ERROR_FORMAT_NOT_SUPPORTED then "VK_ERROR_FORMAT_NOT_SUPPORTED"
  else if err = VK_ERROR_SURFACE_LOST_KHR then "VK_ERROR_SURFACE_LOST_KHR"
  else if err = VK_ERROR_NATIVE_WINDOW_IN_USE_KHR then "VK_ERROR_NATIVE_WINDOW_IN_USE_KHR"
  else if err = VK_SUBOPTIMAL_KHR then "VK_SUBOPTIMAL_KHR"
  else if err = VK_ERROR_OUT_OF_DATE_KHR then "VK_ERROR_OUT_OF_DATE_KHR"
  else if err = VK_ERROR_INCOMPATIBLE_DISPLAY_KHR then "VK_ERROR_INCOMPATIBLE_DISPLAY_KHR"
  else if err = VK_ERROR_VALIDATION_FAILED_EXT then "VK_ERROR_VALIDATION_FAILED_EXT"
  else "UNKNOWN ERROR"

/-- The message of an exception, `std::runtime_error::what()`: the constructor
`error(VkResult err)` (line 54) passes `what(err)` to `std::runtime_error`. -/
def Exception.message : Exception → String
  | .error err => error.what err
  | .runtime_error msg => msg

/-! ## Driver calls -/

/-- Modelled from the spec: the enumerators of `VkImageLayout` (declared in
vulkan/vulkan.h, which is not under src/), the layouts an image can be in. -/
inductive VkImageLayout where
  | VK_IMAGE_LAYOUT_UNDEFINED
  | VK_IMAGE_LAYOUT_GENERAL
  | VK_IMAGE_LAYOUT_COLOR_ATTACHMENT_OPTIMAL
  | VK_IMAGE_LAYOUT_DEPTH_STENCIL_ATTACHMENT_OPTIMAL
  | VK_IMAGE_LAYOUT_DEPTH_STENCIL_READ_ONLY_OPTIMAL
  | VK_IMAGE_LAYOUT_SHADER_READ_ONLY_OPTIMAL
  | VK_IMAGE_LAYOUT_TRANSFER_SRC_OPTIMAL
  | VK_IMAGE_LAYOUT_TRANSFER_DST_OPTIMAL
  | VK_IMAGE_LAYOUT_PREINITIALIZED
  | VK_IMAGE_LAYOUT_PRESENT_SRC_KHR
deriving DecidableEq, Repr

/-- Modelled from the spec: the access flag bit `VK_ACCESS_SHADER_READ_BIT` of
vulkan/vulkan.h (not under src/). -/
def VK_ACCESS_SHADER_READ_BIT : Nat := 0x00000020

/-- Modelled from the spec: the access flag bit `VK_ACCESS_COLOR_ATTACHMENT_WRITE_BIT`
of vulkan/vulkan.h (not under src/). -/
def VK_ACCESS_COLOR_ATTACHMENT_WRITE_BIT : Nat := 0x00000100

/-- Modelled from the spec: the access flag bit
`VK_ACCESS_DEPTH_STENCIL_ATTACHMENT_WRITE_BIT` of vulkan/vulkan.h (not under src/). -/
def VK_ACCESS_DEPTH_STENCIL_ATTACHMENT_WRITE_BIT : Nat := 0x00000400

/-- Modelled from the spec: the access flag bit `VK_ACCESS_TRANSFER_READ_BIT` of
vulkan/vulkan.h (not under src/). -/
def VK_ACCESS_TRANSFER_READ_BIT : Nat := 0x00000800

/-- Modelled from the spec: the access flag bit `VK_ACCESS_TRANSFER_WRITE_BIT` of
vulkan/vulkan.h (not under src/). -/
def VK_ACCESS_TRANSFER_WRITE_BIT : Nat := 0x00001000

/-- Modelled from the spec: the access flag bit `VK_ACCESS_HOST_WRITE_BIT` of
vulkan/vulkan.h (not under src/). -/
def VK_ACCESS_HOST_WRITE_BIT : Nat := 0x00004000

/-- Modelled from the spec: the stage flag bit `VK_PIPELINE_STAGE_TOP_OF_PIPE_BIT` of
vulkan/vulkan.h (not under src/), the "top-of-pipe" placeholder. -/
def VK_PIPELINE_STAGE_TOP_OF_PIPE_BIT : Nat := 0x00000001

/-- Modelled from the spec: the stage flag bit `VK_PIPELINE_STAGE_ALL_COMMANDS_BIT` of
vulkan/vulkan.h (not under src/), the "all-commands" placeholder. -/
def VK_PIPELINE_STAGE_ALL_COMMANDS_BIT : Nat := 0x00010000

/-- Modelled from the spec: the flag bit `VK_IMAGE_ASPECT_COLOR_BIT` of
vulkan/vulkan.h (not under src/), the colour aspect. -/
def VK_IMAGE_ASPECT_COLOR_BIT : Nat := 0x00000001

/-- Modelled from the spec: the constant `VK_QUEUE_FAMILY_IGNORED` of vulkan/vulkan.h
(not under src/), `~0U`. -/
def VK_QUEUE_FAMILY_IGNORED : Nat := 0xFFFFFFFF

/-- The struct `VkImageSubresourceRange` of vulkan.h, five `uint32_t`. -/
structure VkImageSubresourceRange where
  aspectMask : Nat
  baseMipLevel : Nat
  levelCount : Nat
  baseArrayLayer : Nat
  layerCount : Nat
deriving DecidableEq, Repr

/-- The fields of `VkImageMemoryBarrier` (vulkan.h) other than the constant `sType`
and the null `pNext`. -/
structure VkImageMemoryBarrier where
  srcAccessMask : Nat
  dstAccessMask : Nat
  oldLayout : VkImageLayout
  newLayout : VkImageLayout
  srcQueueFamilyIndex : Nat
  dstQueueFamilyIndex : Nat
  image : Nat
  subresourceRange : VkImageSubresourceRange
deriving DecidableEq, Repr

/-- A C `float` value, kept as the expression that produced it: a decimal literal of
the source, or the conversion `(float)n` of an integer value. No floating-point
arithmetic is ever carried out on these values by the code. -/
inductive CFloat where
  | literal (text : String)
  | ofInt (n : Int)
deriving DecidableEq, Repr

/-- The conversion of an `int` to `uint32_t`. -/
def toUint32 (n : Int) : Nat := (n % 2 ^ 32).toNat

/-- The struct `VkOffset2D` of vulkan.h, two `int32_t`. -/
structure VkOffset2D where
  x : Int
  y : Int
deriving DecidableEq, Repr

/-- The struct `VkRect2D` of vulkan.h. -/
structure VkRect2D where
  offset : VkOffset2D
  extent : VkExtent2D
deriving DecidableEq, Repr

/-- The union `VkClearValue` of vulkan.h, tagged by the member that was written. -/
inductive VkClearValue where
  | color (r g b a : CFloat)
  | depthStencil (depth : CFloat) (stencil : Nat)
deriving DecidableEq, Repr

/-- The fields of `VkRenderPassBeginInfo` (vulkan.h) other than `sType` and `pNext`;
`pClearValues` is the array it points to. -/
structure VkRenderPassBeginInfo where
  renderPass : Nat
  framebuffer : Nat
  renderArea : VkRect2D
  clearValueCount : Nat
  pClearValues : List VkClearValue
deriving DecidableEq, Repr

/-- The struct `VkViewport` of vulkan.h, six `float`. -/
structure VkViewport where
  x : CFloat
  y : CFloat
  width : CFloat
  height : CFloat
  minDepth : CFloat
  maxDepth : CFloat
deriving DecidableEq, Repr

/-- Modelled from the spec: the enumerators of `VkSubpassContents` (vulkan/vulkan.h,
not under src/). -/
inductive VkSubpassContents where
  | VK_SUBPASS_CONTENTS_INLINE
  | VK_SUBPASS_CONTENTS_SECONDARY_COMMAND_BUFFERS
deriving DecidableEq, Repr

/-- Modelled from the spec: the enumerators of `VkImageViewType` (vulkan/vulkan.h, not
under src/). -/
inductive VkImageViewType where
  | VK_IMAGE_VIEW_TYPE_1D
  | VK_IMAGE_VIEW_TYPE_2D
  | VK_IMAGE_VIEW_TYPE_3D
  | VK_IMAGE_VIEW_TYPE_CUBE
  | VK_IMAGE_VIEW_TYPE_1D_ARRAY
  | VK_IMAGE_VIEW_TYPE_2D_ARRAY
  | VK_IMAGE_VIEW_TYPE_CUBE_ARRAY
deriving DecidableEq, Repr

/-- Modelled from the spec: the enumerators of `VkComponentSwizzle` (vulkan/vulkan.h,
not under src/). -/
inductive VkComponentSwizzle where
  | VK_COMPONENT_SWIZZLE_IDENTITY
  | VK_COMPONENT_SWIZZLE_ZERO
  | VK_COMPONENT_SWIZZLE_ONE
  | VK_COMPONENT_SWIZZLE_R
  | VK_COMPONENT_SWIZZLE_G
  | VK_COMPONENT_SWIZZLE_B
  | VK_COMPONENT_SWIZZLE_A
deriving DecidableEq, Repr

/-- The struct `VkComponentMapping` of vulkan.h. -/
structure VkComponentMapping where
  r : VkComponentSwizzle
  g : VkComponentSwizzle
  b : VkComponentSwizzle
  a : VkComponentSwizzle
deriving DecidableEq, Repr

/-- The fields of `VkImageViewCreateInfo` (vulkan.h) other than `sType` and `pNext`. -/
structure VkImageViewCreateInfo where
  flags : Nat
  image : Nat
  viewType : VkImageViewType
  format : VkFormat
  components : VkComponentMapping
  subresourceRange : VkImageSubresourceRange
deriving DecidableEq, Repr

/-- The fields of `VkSubmitInfo` (vulkan.h) other than `sType` and `pNext`; each
pointer is given as the array it points to (`[]` for a null pointer). -/
structure VkSubmitInfo where
  waitSemaphoreCount : Nat
  pWaitSemaphores : List Nat
  pWaitDstStageMask : List Nat
  commandBufferCount : Nat
  pCommandBuffers : List Nat
  signalSemaphoreCount : Nat
  pSignalSemaphores : List Nat
deriving DecidableEq, Repr

/-- The fields of `VkPresentInfoKHR` (vulkan.h) other than `sType` and `pNext`; each
pointer is given as the array it points to (`[]` for a null pointer). -/
structure VkPresentInfoKHR where
  waitSemaphoreCount : Nat
  pWaitSemaphores : List Nat
  swapchainCount : Nat
  pSwapchains : List Nat
  pImageIndices : List Nat
  pResults : List VkResult
deriving DecidableEq, Repr

/-- The fields of `VkDeviceQueueCreateInfo` (vulkan.h) the constructor of `instance`
fills in (lines 258-262); `pQueuePriorities` is the array it points to. -/
structure VkDeviceQueueCreateInfo where
  queueFamilyIndex : Nat
  queueCount : Nat
  pQueuePriorities : List CFloat
deriving DecidableEq, Repr

/-- The fields of `VkDeviceCreateInfo` (vulkan.h) the constructor of `instance` fills
in (lines 266-277); each pointer is given as the array it points to, and
`pEnabledFeatures` stays null. -/
structure VkDeviceCreateInfo where
  queueCreateInfoCount : Nat
  pQueueCreateInfos : List VkDeviceQueueCreateInfo
  enabledExtensionCount : Nat
  ppEnabledExtensionNames : List String
deriving DecidableEq, Repr

/-- The driver entry points the embedded code calls to change driver state, with their
arguments; a creation call also carries the handle the driver returned.
`vkDestroyImageView` is the driver's entry point for releasing a view: no embedded
function calls it, it is listed so that this can be stated. -/
inductive VkCall where
  | vkDestroyInstance (inst : Nat)
  | vkDestroySwapchainKHR (device : Nat) (swapchain : Nat)
  | vkDestroySemaphore (device : Nat) (semaphore : Nat)
  | vkDestroyImageView (device : Nat) (imageView : Nat)
  | vkCreateSwapchainKHR (device : Nat) (createInfo : VkSwapchainCreateInfoKHR) (swapchain : Nat)
  | vkCreateImageView (device : Nat) (createInfo : VkImageViewCreateInfo) (view : Nat)
  | vkBeginCommandBuffer (commandBuffer : Nat)
  | vkCmdBeginRenderPass (commandBuffer : Nat) (renderPassBegin : VkRenderPassBeginInfo)
      (contents : VkSubpassContents)
  | vkCmdSetViewport (commandBuffer : Nat) (firstViewport : Nat) (viewports : List VkViewport)
  | vkCmdSetScissor (commandBuffer : Nat) (firstScissor : Nat) (scissors : List VkRect2D)
  | vkCmdEndRenderPass (commandBuffer : Nat)
  | vkCmdPipelineBarrier (commandBuffer : Nat) (srcStageMask dstStageMask : Nat)
      (dependencyFlags : Nat) (memoryBarrierCount bufferMemoryBarrierCount : Nat)
      (imageMemoryBarriers : List VkImageMemoryBarrier)
  | vkEndCommandBuffer (commandBuffer : Nat)
  | vkQueueSubmit (queue : Nat) (submits : List VkSubmitInfo) (fence : Nat)
  | vkQueuePresentKHR (queue : Nat) (presentInfo : VkPresentInfoKHR)
  | vkCreateDevice (physicalDevice : Nat) (createInfo : VkDeviceCreateInfo) (device : Nat)
  | vkGetDeviceQueue (device : Nat) (queueFamilyIndex : Nat) (queueIndex : Nat) (queue : Nat)
  | vkDestroyBuffer (device : Nat) (buffer : Nat)
deriving DecidableEq, Repr

/-- The destructor function `destroy<VulkanType>(dev, value)`: the specialisations for
`VkInstance` (lines 148-150), `VkSwapchainKHR` (lines 303-305) and `VkSemaphore`
(lines 1304-1306) make one driver call; the primary template (line 59) and the
`VkQueue` specialisation (line 1320) make none. -/
def destroy (T : VulkanType) (dev : Nat) (value : Nat) : List VkCall :=
  match T with
  | .VkInstance => [.vkDestroyInstance value]
  | .VkSwapchainKHR => [.vkDestroySwapchainKHR dev value]
  | .VkSemaphore => [.vkDestroySemaphore dev value]
  | .VkQueue => []
  | .VkCommandBuffer => []

/-- The driver calls made by one logged invocation of a destructor function. -/
def DestroyCall.driverCalls (c : DestroyCall) : List VkCall :=
  destroy c.type c.dev c.value

/-! ## `class cmdBuffer` (lines 972-1245)

A `cmdBuffer` is a `resource<VkCommandBuffer>`; each method is given as the list of
driver calls it makes on the wrapped command buffer, in order. -/

namespace cmdBuffer

/-- The method `beginCommandBuffer()` (lines 995-1000); `cmdBufInfo` is zero but for
its `sType`. -/
def beginCommandBuffer (self : resource .VkCommandBuffer) : List VkCall :=
  [.vkBeginCommandBuffer self.get]

/-- The method `beginRenderPass(renderPass, framebuffer, x, y, width, height)`
(lines 1002-1020); the `int` arguments `width`, `height` are stored in `uint32_t`
fields. -/
def beginRenderPass (self : resource .VkCommandBuffer) (renderPass framebuffer : Nat)
    (x y width height : Int) : List VkCall :=
  let clearValues : List VkClearValue :=
    [ .color (.literal "0.025f") (.literal "0.025f") (.literal "0.025f") (.literal "1.0f"),
      .depthStencil (.literal "1.0f") 0 ]
  let renderPassBeginInfo : VkRenderPassBeginInfo :=
    { framebuffer := framebuffer
      renderPass := renderPass
      renderArea := { offset := { x := x, y := y }
                      extent := { width := toUint32 width, height := toUint32 height } }
      clearValueCount := 2
      pClearValues := clearValues }
  [.vkCmdBeginRenderPass self.get renderPassBeginInfo .VK_SUBPASS_CONTENTS_INLINE]

/-- The method `setViewport(x, y, width, height, minDepth, maxDepth)`
(lines 1022-1032). -/
def setViewport (self : resource .VkCommandBuffer) (x y width height minDepth maxDepth : CFloat) :
    List VkCall :=
  let viewport : VkViewport :=
    { x := x, y := y, width := width, height := height, minDepth := minDepth,
      maxDepth := maxDepth }
  [.vkCmdSetViewport self.get 0 [viewport]]

/-- The method `setScissor(x, y, width, height)` (lines 1034-1042); the `int`
arguments `width`, `height` are stored in `uint32_t` fields. -/
def setScissor (self : resource .VkCommandBuffer) (x y width height : Int) : List VkCall :=
  let scissor : VkRect2D :=
    { offset := { x := x, y := y }
      extent := { width := toUint32 width, height := toUint32 height } }
  [.vkCmdSetScissor self.get 0 [scissor]]

/-- The method `begin(renderPass, framebuffer, width, height)` (lines 982-987); the
call of `setViewport` converts its arguments to `float` and leaves `minDepth`,
`maxDepth` to their defaults 0 and 1. -/
def begin (self : resource .VkCommandBuffer) (renderPass framebuffer : Nat)
    (width height : Int) : List VkCall :=
  beginCommandBuffer self ++
  beginRenderPass self renderPass framebuffer 0 0 width height ++
  setViewport self (.ofInt 0) (.ofInt 0) (.ofInt width) (.ofInt height) (.ofInt 0) (.ofInt 1) ++
  setScissor self 0 0 width height

/-- The method `endRenderPass()` (lines 1068-1070). -/
def endRenderPass (self : resource .VkCommandBuffer) : List VkCall :=
  [.vkCmdEndRenderPass self.get]

/-- The method `addPresentationBarrier(image)` (lines 1072-1097). -/
def addPresentationBarrier (self : resource .VkCommandBuffer) (image : Nat) : List VkCall :=
  let prePresentBarrier : VkImageMemoryBarrier :=
    { srcAccessMask := VK_ACCESS_COLOR_ATTACHMENT_WRITE_BIT
      dstAccessMask := 0
      oldLayout := .VK_IMAGE_LAYOUT_COLOR_ATTACHMENT_OPTIMAL
      newLayout := .VK_IMAGE_LAYOUT_PRESENT_SRC_KHR
      srcQueueFamilyIndex := VK_QUEUE_FAMILY_IGNORED
      dstQueueFamilyIndex := VK_QUEUE_FAMILY_IGNORED
      subresourceRange := { aspectMask := VK_IMAGE_ASPECT_COLOR_BIT, baseMipLevel := 0,
                            levelCount := 1, baseArrayLayer := 0, layerCount := 1 }
      image := image }
  [.vkCmdPipelineBarrier self.get VK_PIPELINE_STAGE_ALL_COMMANDS_BIT
      VK_PIPELINE_STAGE_TOP_OF_PIPE_BIT 0 0 0 [prePresentBarrier]]

/-- The method `endCommandBuffer()` (lines 1099-1101). -/
def endCommandBuffer (self : resource .VkCommandBuffer) : List VkCall :=
  [.vkEndCommandBuffer self.get]

/-- The method `end(image)` (lines 989-993). -/
def end_ (self : resource .VkCommandBuffer) (image : Nat) : List VkCall :=
  endRenderPass self ++ addPresentationBarrier self image ++ endCommandBuffer self

/-- The barrier `imageMemoryBarrier` that `setImageLayout` has built when it reaches the
call of `vkCmdPipelineBarrier` (lines 1145-1227): zero-initialised, then filled in by
the assignments and the nine `if` statements, in the order of the source. -/
def setImageLayout.imageMemoryBarrier (image aspectMask : Nat)
    (oldImageLayout newImageLayout : VkImageLayout) : VkImageMemoryBarrier :=
  let b : VkImageMemoryBarrier :=
    { srcAccessMask := 0
      dstAccessMask := 0
      srcQueueFamilyIndex := VK_QUEUE_FAMILY_IGNORED
      dstQueueFamilyIndex := VK_QUEUE_FAMILY_IGNORED
      oldLayout := oldImageLayout
      newLayout := newImageLayout
      image := image
      subresourceRange := { aspectMask := aspectMask, baseMipLevel := 0, levelCount := 1,
                            baseArrayLayer := 0, layerCount := 1 } }
  let b : VkImageMemoryBarrier :=
    if oldImageLayout = .VK_IMAGE_LAYOUT_UNDEFINED then
      { b with srcAccessMask := VK_ACCESS_HOST_WRITE_BIT ||| VK_ACCESS_TRANSFER_WRITE_BIT }
    else b
  let b : VkImageMemoryBarrier :=
    if oldImageLayout = .VK_IMAGE_LAYOUT_COLOR_ATTACHMENT_OPTIMAL then
      { b with srcAccessMask := VK_ACCESS_COLOR_ATTACHMENT_WRITE_BIT }
    else b
  let b : VkImageMemoryBarrier :=
    if oldImageLayout = .VK_IMAGE_LAYOUT_TRANSFER_SRC_OPTIMAL then
      { b with srcAccessMask := VK_ACCESS_TRANSFER_READ_BIT }
    else b
  let b : VkImageMemoryBarrier :=
    if oldImageLayout = .VK_IMAGE_LAYOUT_SHADER_READ_ONLY_OPTIMAL then
      { b with srcAccessMask := VK_ACCESS_SHADER_READ_BIT }
    else b
  let b : VkImageMemoryBarrier :=
    if newImageLayout = .VK_IMAGE_LAYOUT_TRANSFER_DST_OPTIMAL then
      { b with dstAccessMask := VK_ACCESS_TRANSFER_WRITE_BIT }
    else b
  let b : VkImageMemoryBarrier :=
    if newImageLayout = .VK_IMAGE_LAYOUT_TRANSFER_SRC_OPTIMAL then
      { b with srcAccessMask := b.srcAccessMask ||| VK_ACCESS_TRANSFER_READ_BIT,
               dstAccessMask := VK_ACCESS_TRANSFER_READ_BIT }
    else b
  let b : VkImageMemoryBarrier :=
    if newImageLayout = .VK_IMAGE_LAYOUT_COLOR_ATTACHMENT_OPTIMAL then
      { b with dstAccessMask := VK_ACCESS_COLOR_ATTACHMENT_WRITE_BIT,
               srcAccessMask := VK_ACCESS_TRANSFER_READ_BIT }
    else b
  let b : VkImageMemoryBarrier :=
    if newImageLayout = .VK_IMAGE_LAYOUT_DEPTH_STENCIL_ATTACHMENT_OPTIMAL then
      { b with dstAccessMask := b.dstAccessMask ||| VK_ACCESS_DEPTH_STENCIL_ATTACHMENT_WRITE_BIT }
    else b
  let b : VkImageMemoryBarrier :=
    if newImageLayout = .VK_IMAGE_LAYOUT_SHADER_READ_ONLY_OPTIMAL then
      { b with srcAccessMask := VK_ACCESS_HOST_WRITE_BIT ||| VK_ACCESS_TRANSFER_WRITE_BIT,
               dstAccessMask := VK_ACCESS_SHADER_READ_BIT }
    else b
  b

/-- The method `setImageLayout(image, aspectMask, oldImageLayout, newImageLayout)`
(lines 1142-1243). -/
def setImageLayout (self : resource .VkCommandBuffer) (image aspectMask : Nat)
    (oldImageLayout newImageLayout : VkImageLayout) : List VkCall :=
  let srcStageFlags := VK_PIPELINE_STAGE_TOP_OF_PIPE_BIT
  let destStageFlags := VK_PIPELINE_STAGE_TOP_OF_PIPE_BIT
  [.vkCmdPipelineBarrier self.get srcStageFlags destStageFlags 0 0 0
      [setImageLayout.imageMemoryBarrier image aspectMask oldImageLayout newImageLayout]]

end cmdBuffer

/-! ## `class queue` (lines 1322-1352) -/

/-- The method `queue::submit(sema, buffer)` (lines 1332-1346), given the status `err`
that `vkQueueSubmit` returns: the result of the call and the driver calls made.
`pWaitSemaphores` points to the parameter `sema` whatever its value. -/
def queue.submit (self : resource .VkQueue) (sema buffer : Nat) (err : VkResult) :
    Except Exception Unit × List VkCall :=
  let submitInfo : VkSubmitInfo :=
    { waitSemaphoreCount := if sema ≠ 0 then 1 else 0
      pWaitSemaphores := [sema]
      pWaitDstStageMask := []
      commandBufferCount := 1
      pCommandBuffers := [buffer]
      signalSemaphoreCount := 0
      pSignalSemaphores := [] }
  let calls := [VkCall.vkQueueSubmit self.get [submitInfo] 0]
  if err ≠ 0 then (.error (.error err), calls) else (.ok (), calls)

/-- The method `swapChain::present(queue, currentBuffer)` (lines 420-431), given the
status `err` that `vkQueuePresentKHR` returns: the result of the call and the driver
calls made. `presentInfo` is zero-initialised, so it has no wait semaphores. -/
def swapChain.present (self : swapChain) (queue currentBuffer : Nat) (err : VkResult) :
    Except Exception Unit × List VkCall :=
  let sc := self.toResource.get
  let presentInfo : VkPresentInfoKHR :=
    { waitSemaphoreCount := 0
      pWaitSemaphores := []
      swapchainCount := 1
      pSwapchains := [sc]
      pImageIndices := [currentBuffer]
      pResults := [] }
  let calls := [VkCall.vkQueuePresentKHR queue presentInfo]
  if err ≠ 0 then (.error (.error err), calls) else (.ok (), calls)

/-! ## `class swapChain`, continued: images, views, assignment, destruction -/

/-- The driver calls made by a log of destructor-function invocations. -/
def driverCalls (log : List DestroyCall) : List VkCall :=
  log.flatMap DestroyCall.driverCalls

/-- The effect of `std::vector::resize(n)` on a vector of handles: extra elements are
dropped, missing ones are null. -/
def vectorResize (v : List Nat) (n : Nat) : List Nat :=
  v.take n ++ List.replicate (n - v.length) 0

/-- What the driver answers to the calls of `build_images`, in the order they are
made: the first `vkGetSwapchainImagesKHR` (status and image count), the second one
(status and the images of the chain, of which the driver writes at most as many as
the vector it is given can hold, setting `imageCount` to the number written), and the
`vkCreateImageView` call for each index. -/
structure ImagesReplies where
  countErr : VkResult
  imageCount : Nat
  imagesErr : VkResult
  images : List Nat
  views : Nat → CreateReply

namespace swapChain

/-- The accessor `imageCount()` (line 436). -/
def imageCount (self : swapChain) : Nat := self.swapchainImages.length

/-- The accessor `image(i)` (line 437); the source does not check that `i` is within
the vector, and the value outside is of no consequence here. -/
def image (self : swapChain) (i : Nat) : Nat := self.swapchainImages.getD i 0

/-- The accessor `view(i)` (line 438); see `image`. -/
def view (self : swapChain) (i : Nat) : Nat := self.swapchainViews.getD i 0

/-- The request `colorAttachmentView` of `build_images` (lines 1262-1277, 1285) once
its `image` field is assigned. -/
def build_images.colorAttachmentView (image : Nat) : VkImageViewCreateInfo :=
  { format := .VK_FORMAT_B8G8R8A8_UNORM
    components := { r := .VK_COMPONENT_SWIZZLE_R, g := .VK_COMPONENT_SWIZZLE_G,
                    b := .VK_COMPONENT_SWIZZLE_B, a := .VK_COMPONENT_SWIZZLE_A }
    subresourceRange := { aspectMask := VK_IMAGE_ASPECT_COLOR_BIT, baseMipLevel := 0,
                          levelCount := 1, baseArrayLayer := 0, layerCount := 1 }
    viewType := .VK_IMAGE_VIEW_TYPE_2D
    flags := 0
    image := image }

/-- The loop of `build_images` (lines 1260-1289) from index `i` on, with `n`
iterations left: a layout transition recorded on `cb`, then the creation of the view,
whose handle is stored in `swapchainViews[i]`; a non-zero status is thrown. -/
def build_images.loop (d : Nat) (cb : resource .VkCommandBuffer) (views : Nat → CreateReply) :
    Nat → Nat → swapChain → List VkCall → Except Exception swapChain × List VkCall
  | 0, _, self, calls => (.ok self, calls)
  | n + 1, i, self, calls =>
    let calls := calls ++ cmdBuffer.setImageLayout cb (self.image i) VK_IMAGE_ASPECT_COLOR_BIT
      .VK_IMAGE_LAYOUT_UNDEFINED .VK_IMAGE_LAYOUT_PRESENT_SRC_KHR
    let colorAttachmentView := build_images.colorAttachmentView (self.image i)
    let calls := calls ++ [.vkCreateImageView d colorAttachmentView (views i).handle]
    if (views i).err ≠ 0 then (.error (.error (views i).err), calls)
    else
      build_images.loop d cb views n (i + 1)
        { self with swapchainViews := self.swapchainViews.set i (views i).handle } calls

/-- The method `build_images(buf)` (lines 1247-1290): the outcome and the driver calls
made. The temporary `cb` wraps `buf` without owning it. -/
def build_images (self : swapChain) (buf : Nat) (replies : ImagesReplies) :
    Except Exception swapChain × List VkCall :=
  let d := self.toResource.dev
  let cb : resource .VkCommandBuffer := resource.ctorValue buf d
  if replies.countErr ≠ 0 then (.error (.error replies.countErr), [])
  else
    let self : swapChain :=
      { self with swapchainImages := vectorResize self.swapchainImages replies.imageCount
                  swapchainViews := vectorResize self.swapchainViews replies.imageCount }
    if replies.imagesErr ≠ 0 then (.error (.error replies.imagesErr), [])
    else
      let written := replies.images.take replies.imageCount
      let imageCount := written.length
      let self : swapChain :=
        { self with swapchainImages := written ++ self.swapchainImages.drop written.length }
      build_images.loop d cb replies.views imageCount 0 self []

/-- The whole constructor `swapChain(dev, width, height, surface, buf)`
(lines 314-407): `ctorCreate`, then `build_images(buf)`. The second component lists
the driver calls made from the creation of the chain on. When `build_images` throws,
the base `resource` is destroyed as the exception leaves the constructor. -/
def ctor (dev : device) (width height surface buf : Nat) (replies : SurfaceReplies)
    (imageReplies : ImagesReplies) : Except Exception swapChain × List VkCall :=
  match ctorCreate dev width height surface replies with
  | .error e => (.error e, [])
  | .ok (self, swapchainCI) =>
    let created := [VkCall.vkCreateSwapchainKHR dev.dev swapchainCI self.toResource.get]
    match build_images self buf imageReplies with
    | (.ok built, calls) => (.ok built, created ++ calls)
    | (.error e, calls) => (.error e, created ++ calls ++ driverCalls (self.toResource.dtor []))

/-- The move assignment `swapChain &operator=(swapChain &&rhs)` (lines 411-418) for two
distinct objects: the new `*this`, the new `rhs` (its vectors are left empty by
`std::move`), and the destroy log. -/
def moveAssign (self rhs : swapChain) (log : List DestroyCall) :
    swapChain × swapChain × List DestroyCall :=
  let base := self.toResource.moveAssign rhs.toResource log
  ({ toResource := base.1
     width_ := rhs.width_
     height_ := rhs.height_
     swapchainImages := rhs.swapchainImages
     swapchainViews := rhs.swapchainViews },
   { rhs with toResource := base.2.1, swapchainImages := [], swapchainViews := [] },
   base.2.2)

/-- The implicit destructor of `swapChain`: the two vectors of raw handles are freed,
which makes no driver call, then the base `~resource()` runs. -/
def dtor (self : swapChain) (log : List DestroyCall) : List DestroyCall :=
  self.toResource.dtor log

end swapChain

/-! ## `class instance` (lines 207-301)

`instance` is a reserved word here, so the class appears as `instance_`. -/

/-- The part of `VkQueueFamilyProperties` (vulkan.h) that is made of plain numbers. -/
structure VkQueueFamilyProperties where
  queueFlags : Nat
  queueCount : Nat
  timestampValidBits : Nat
deriving DecidableEq, Repr

/-- Modelled from the spec: the flag bit `VK_QUEUE_GRAPHICS_BIT` of vulkan/vulkan.h
(not under src/), "graphics-capable queue family". -/
def VK_QUEUE_GRAPHICS_BIT : Nat := 0x00000001

/-- Modelled from the spec: the string `VK_KHR_SWAPCHAIN_EXTENSION_NAME` of
vulkan/vulkan.h (not under src/), the device extension for presentation chains. -/
def VK_KHR_SWAPCHAIN_EXTENSION_NAME : String := "VK_KHR_swapchain"

/-- The data members of `class instance`: the base `resource<VkInstance>` and
lines 297-300. -/
structure instance_ where
  toResource : resource .VkInstance
  enableValidation : Bool
  physicalDevice_ : Nat
  dev_ : Nat
  queue_ : Nat
deriving DecidableEq, Repr

/-- What the driver answers to the calls of the constructor `instance(const char*)`,
in the order they are made: `vkCreateInstance`, the two `vkEnumeratePhysicalDevices`
calls (the count, then the devices, of which the driver writes at most `gpuCount`), the
queue family properties of the first device (`queueCount` being the length of the
list), `vkCreateDevice` and `vkGetDeviceQueue`. -/
structure InstanceReplies where
  createInstance : CreateReply
  countErr : VkResult
  gpuCount : Nat
  enumErr : VkResult
  physicalDevices : List Nat
  queueProps : List VkQueueFamilyProperties
  createDevice : CreateReply
  queue : Nat
deriving DecidableEq, Repr

namespace instance_

/-- The loop that looks for a graphics queue family (lines 249-253) over the families
not yet visited, `graphicsQueueIndex` being the index of the first of them: it stops at
the first family with the graphics bit, and otherwise ends with the index equal to
`queueCount`. -/
def graphicsQueueIndex.loop : List VkQueueFamilyProperties → Nat → Nat
  | [], graphicsQueueIndex => graphicsQueueIndex
  | props :: rest, graphicsQueueIndex =>
    if props.queueFlags &&& VK_QUEUE_GRAPHICS_BIT ≠ 0 then graphicsQueueIndex
    else graphicsQueueIndex.loop rest (graphicsQueueIndex + 1)

/-- The value of `graphicsQueueIndex` after the loop (lines 240-253). -/
def graphicsQueueIndex (queueProps : List VkQueueFamilyProperties) : Nat :=
  graphicsQueueIndex.loop queueProps 0

/-- The request `deviceCreateInfo` handed to `vkCreateDevice` (lines 257-277). -/
def deviceCreateInfo (graphicsQueueIndex : Nat) : VkDeviceCreateInfo :=
  let queueCreateInfo : VkDeviceQueueCreateInfo :=
    { queueFamilyIndex := graphicsQueueIndex
      queueCount := 1
      pQueuePriorities := [.literal "0.0f"] }
  { queueCreateInfoCount := 1
    pQueueCreateInfos := [queueCreateInfo]
    enabledExtensionCount := 1
    ppEnabledExtensionNames := [VK_KHR_SWAPCHAIN_EXTENSION_NAME] }

/-- The constructor `instance(const char *name)` (lines 217-289): the outcome, and the
driver calls made from the creation of the logical device on. The base is built by
`resource((VkDevice)nullptr)`, which runs the instance factory; when the body throws,
the base is destroyed as the exception leaves the constructor. -/
def ctor (_name : String) (replies : InstanceReplies) : Except Exception instance_ × List VkCall :=
  match resource.ctorDevice .VkInstance 0 replies.createInstance with
  | .error e => (.error e, [])
  | .ok base =>
    let unwind := driverCalls (base.dtor [])
    if replies.countErr ≠ 0 then (.error (.error replies.countErr), unwind)
    else if replies.gpuCount = 0 then
      (.error (.runtime_error "no Vulkan devices found"), unwind)
    else if replies.enumErr ≠ 0 then (.error (.error replies.enumErr), unwind)
    else
      let written := replies.physicalDevices.take replies.gpuCount
      let physicalDevices := written ++ List.replicate (replies.gpuCount - written.length) 0
      let physicalDevice_ := physicalDevices.getD 0 0
      let graphicsQueueIndex := graphicsQueueIndex replies.queueProps
      let created := [VkCall.vkCreateDevice physicalDevice_ (deviceCreateInfo graphicsQueueIndex)
        replies.createDevice.handle]
      if replies.createDevice.err ≠ 0 then
        (.error (.error replies.createDevice.err), created ++ unwind)
      else
        (.ok { toResource := base
               enableValidation := false
               physicalDevice_ := physicalDevice_
               dev_ := replies.createDevice.handle
               queue_ := replies.queue },
         created ++ [.vkGetDeviceQueue replies.createDevice.handle graphicsQueueIndex 0
           replies.queue])

end instance_

/-! ## `class buffer` (lines 460-561) -/

/-- The data members of `class buffer` (lines 556-560). -/
structure buffer where
  buf_ : Nat
  dev : Nat
  mem : Nat
  size_ : Nat
  ownsBuffer : Bool
deriving DecidableEq, Repr

namespace buffer

/-- The move assignment `buffer &operator=(buffer &&rhs)` (lines 504-515) for two
distinct objects: the new `*this`, the new `rhs`, and the driver calls made so far,
to which it adds none. -/
def moveAssign (self rhs : buffer) (calls : List VkCall) : buffer × buffer × List VkCall :=
  let self : buffer := { self with dev := rhs.dev }
  let self : buffer := { self with buf_ := rhs.buf_ }
  let self : buffer := { self with mem := rhs.mem }
  let self : buffer := { self with size_ := rhs.size_ }
  let rhs : buffer := { rhs with dev := 0 }
  let rhs : buffer := { rhs with mem := 0 }
  let rhs : buffer := { rhs with buf_ := 0 }
  let rhs : buffer := { rhs with ownsBuffer := false }
  (self, rhs, calls)

/-- The destructor `~buffer()` (lines 517-522): only the driver calls change, the
object is gone afterwards. -/
def dtor (self : buffer) (calls : List VkCall) : List VkCall :=
  if self.buf_ ≠ 0 ∧ self.ownsBuffer = true then calls ++ [.vkDestroyBuffer self.dev self.buf_]
  else calls

end buffer

/-! ## Predicates and sample data used to state the properties -/

/-- The 23 status codes the `switch` of `error::what` lists, each with the name the
specification gives it (the code's own identifier). -/
def error.table : List (VkResult × String) :=
  [ (VK_SUCCESS, "VK_SUCCESS"),
    (VK_NOT_READY, "VK_NOT_READY"),
    (VK_TIMEOUT, "VK_TIMEOUT"),
    (VK_EVENT_SET, "VK_EVENT_SET"),
    (VK_EVENT_RESET, "VK_EVENT_RESET"),
    (VK_INCOMPLETE, "VK_INCOMPLETE"),
    (VK_ERROR_OUT_OF_HOST_MEMORY, "VK_ERROR_OUT_OF_HOST_MEMORY"),
    (VK_ERROR_OUT_OF_DEVICE_MEMORY, "VK_ERROR_OUT_OF_DEVICE_MEMORY"),
    (VK_ERROR_INITIALIZATION_FAILED, "VK_ERROR_INITIALIZATION_FAILED"),
    (VK_ERROR_DEVICE_LOST, "VK_ERROR_DEVICE_LOST"),
    (VK_ERROR_MEMORY_MAP_FAILED, "VK_ERROR_MEMORY_MAP_FAILED"),
    (VK_ERROR_LAYER_NOT_PRESENT, "VK_ERROR_LAYER_NOT_PRESENT"),
    (VK_ERROR_EXTENSION_NOT_PRESENT, "VK_ERROR_EXTENSION_NOT_PRESENT"),
    (VK_ERROR_FEATURE_NOT_PRESENT, "VK_ERROR_FEATURE_NOT_PRESENT"),
    (VK_ERROR_INCOMPATIBLE_DRIVER, "VK_ERROR_INCOMPATIBLE_DRIVER"),
    (VK_ERROR_TOO_MANY_OBJECTS, "VK_ERROR_TOO_MANY_OBJECTS"),
    (VK_ERROR_FORMAT_NOT_SUPPORTED, "VK_ERROR_FORMAT_NOT_SUPPORTED"),
    (VK_ERROR_SURFACE_LOST_KHR, "VK_ERROR_SURFACE_LOST_KHR"),
    (VK_ERROR_NATIVE_WINDOW_IN_USE_KHR, "VK_ERROR_NATIVE_WINDOW_IN_USE_KHR"),
    (VK_SUBOPTIMAL_KHR, "VK_SUBOPTIMAL_KHR"),
    (VK_ERROR_OUT_OF_DATE_KHR, "VK_ERROR_OUT_OF_DATE_KHR"),
    (VK_ERROR_INCOMPATIBLE_DISPLAY_KHR, "VK_ERROR_INCOMPATIBLE_DISPLAY_KHR"),
    (VK_ERROR_VALIDATION_FAILED_EXT, "VK_ERROR_VALIDATION_FAILED_EXT") ]


/-- A surface capability record with the given image counts and current extent, every
other field zero. -/
def surfCapsOf (minImageCount maxImageCount width height : Nat) : VkSurfaceCapabilitiesKHR :=
  { minImageCount := minImageCount
    maxImageCount := maxImageCount
    currentExtent := { width := width, height := height }
    minImageExtent := { width := 0, height := 0 }
    maxImageExtent := { width := 0, height := 0 }
    maxImageArrayLayers := 0
    supportedTransforms := 0
    currentTransform := 0
    supportedCompositeAlpha := 0
    supportedUsageFlags := 0 }


/-- Index `i` qualifies for `getMemoryType`: bit `i` of `typeBits` is set and the
property flags of memory type `i` contain all of `properties`. -/
def device.qualifies (deviceMemoryProperties : VkPhysicalDeviceMemoryProperties)
    (typeBits properties : Nat) (i : Nat) : Prop :=
  typeBits.testBit i = true ∧
    (deviceMemoryProperties.memoryTypes i).propertyFlags &&& properties = properties

instance device.qualifies.decidable (deviceMemoryProperties : VkPhysicalDeviceMemoryProperties)
    (typeBits properties : Nat) (i : Nat) :
    Decidable (device.qualifies deviceMemoryProperties typeBits properties i) := by
  unfold device.qualifies
  infer_instance

/-- The optimal-tiling features of `format` include the depth-stencil-attachment bit. -/
def device.depthStencilCapable (formatProps : VkFormat → VkFormatProperties)
    (format : VkFormat) : Prop :=
  (formatProps format).optimalTilingFeatures &&&
    VK_FORMAT_FEATURE_DEPTH_STENCIL_ATTACHMENT_BIT ≠ 0

instance device.depthStencilCapable.decidable (formatProps : VkFormat → VkFormatProperties)
    (format : VkFormat) : Decidable (device.depthStencilCapable formatProps format) := by
  unfold device.depthStencilCapable
  infer_instance

/-- The source access mask that the barrier table derives from the old layout alone:
host-write or transfer-write for undefined, color-attachment-write for
color-attachment-optimal, transfer-read for transfer-src-optimal, shader-read for
shader-read-only-optimal, and 0 for any other layout. -/
def oldLayoutAccessMask : VkImageLayout → Nat
  | .VK_IMAGE_LAYOUT_UNDEFINED => VK_ACCESS_HOST_WRITE_BIT ||| VK_ACCESS_TRANSFER_WRITE_BIT
  | .VK_IMAGE_LAYOUT_COLOR_ATTACHMENT_OPTIMAL => VK_ACCESS_COLOR_ATTACHMENT_WRITE_BIT
  | .VK_IMAGE_LAYOUT_TRANSFER_SRC_OPTIMAL => VK_ACCESS_TRANSFER_READ_BIT
  | .VK_IMAGE_LAYOUT_SHADER_READ_ONLY_OPTIMAL => VK_ACCESS_SHADER_READ_BIT
  | _ => 0

/-- The destination access mask that the barrier table gives for the new layout:
transfer-write for transfer-dst-optimal, transfer-read for transfer-src-optimal,
color-attachment-write for color-attachment-optimal, depth-stencil-attachment-write for
depth-stencil-attachment-optimal, shader-read for shader-read-only-optimal, and 0 for
any other layout. -/
def newLayoutAccessMask : VkImageLayout → Nat
  | .VK_IMAGE_LAYOUT_TRANSFER_DST_OPTIMAL => VK_ACCESS_TRANSFER_WRITE_BIT
  | .VK_IMAGE_LAYOUT_TRANSFER_SRC_OPTIMAL => VK_ACCESS_TRANSFER_READ_BIT
  | .VK_IMAGE_LAYOUT_COLOR_ATTACHMENT_OPTIMAL => VK_ACCESS_COLOR_ATTACHMENT_WRITE_BIT
  | .VK_IMAGE_LAYOUT_DEPTH_STENCIL_ATTACHMENT_OPTIMAL =>
    VK_ACCESS_DEPTH_STENCIL_ATTACHMENT_WRITE_BIT
  | .VK_IMAGE_LAYOUT_SHADER_READ_ONLY_OPTIMAL => VK_ACCESS_SHADER_READ_BIT
  | _ => 0

/-- Sample answers of the driver to the first phase of the constructor: every call
succeeds, the surface reports no extent of its own and a minimum of one image (so
that two are requested), present mode fifo only, and the chain created has handle 9. -/
def sampleSurfaceReplies : SurfaceReplies :=
  { capsErr := 0
    surfCaps := surfCapsOf 1 0 0xFFFFFFFF 0xFFFFFFFF
    countErr := 0
    modesErr := 0
    presentModes := [.VK_PRESENT_MODE_FIFO_KHR]
    createChain := { err := 0, handle := 9 } }

/-- Sample answers of the driver to `build_images`: the chain has the three images 21,
22, 23, and the view created at index `i` has handle `31 + i`. -/
def sampleImagesReplies : ImagesReplies :=
  { countErr := 0
    imageCount := 3
    imagesErr := 0
    images := [21, 22, 23]
    views := fun i => { err := 0, handle := 31 + i } }

/-- The swapchain object that the constructor builds from the sample answers, for
device 1 and a request of 800 x 600. -/
def sampleChain : swapChain :=
  { toResource := { value_ := 9, ownsResource := true, dev_ := 1 }
    width_ := 800
    height_ := 600
    swapchainImages := [21, 22, 23]
    swapchainViews := [31, 32, 33] }

/-- A queue family whose queue flags include the graphics bit. -/
def hasGraphics (props : VkQueueFamilyProperties) : Prop :=
  props.queueFlags &&& VK_QUEUE_GRAPHICS_BIT ≠ 0

instance hasGraphics.decidable (props : VkQueueFamilyProperties) :
    Decidable (hasGraphics props) := by
  unfold hasGraphics
  infer_instance

/-- Sample answers of the driver to the constructor of `instance`: instance 7 is
created, enumeration succeeds and reports no physical device at all. -/
def sampleNoDeviceReplies : InstanceReplies :=
  { createInstance := { err := 0, handle := 7 }
    countErr := 0
    gpuCount := 0
    enumErr := 0
    physicalDevices := []
    queueProps := []
    createDevice := { err := 0, handle := 0 }
    queue := 0 }

/-- Sample answers of the driver to the constructor of `instance`: one physical device
(handle 8) with two queue families, a compute-only one and a transfer-only one, so that
none has the graphics bit; device 9 and queue 10 are handed out. -/
def sampleNoGraphicsReplies : InstanceReplies :=
  { createInstance := { err := 0, handle := 7 }
    countErr := 0
    gpuCount := 1
    enumErr := 0
    physicalDevices := [8]
    queueProps := [{ queueFlags := 2, queueCount := 1, timestampValidBits := 0 },
                   { queueFlags := 4, queueCount := 1, timestampValidBits := 0 }]
    createDevice := { err := 0, handle := 9 }
    queue := 10 }

/-! ## Theorems -/

/-- C1: after `a = move(b)` on distinct wrappers of any handle kind, `b` holds a null
handle and owns nothing, `a` holds the handle, device and owning flag `b` had, and the
destroy log grew by exactly one call, on `a`'s previous device and handle, when `a`
owned a non-null handle, and did not grow at all otherwise. -/
theorem resource_moveAssign_post (T : VulkanType) (a b : resource T) (log : List DestroyCall) :
    (resource.moveAssign a b log).2.1.value_ = 0 ∧
    (resource.moveAssign a b log).2.1.ownsResource = false ∧
    (resource.moveAssign a b log).1.value_ = b.value_ ∧
    (resource.moveAssign a b log).1.dev_ = b.dev_ ∧
    (resource.moveAssign a b log).1.ownsResource = b.ownsResource ∧
    (resource.moveAssign a b log).2.2 =
      log ++ (if a.ownsResource = true ∧ a.value_ ≠ 0
              then [{ type := T, dev := a.dev_, value := a.value_ }] else []) := by
  refine ⟨rfl, rfl, rfl, rfl, rfl, ?_⟩
  unfold resource.moveAssign
  by_cases h1 : a.value_ = 0 <;> by_cases h2 : a.ownsResource = true <;> simp [h1, h2]

/-- C2: for every handle kind, a default-constructed wrapper has a null handle and owns
nothing; after `clear()` from any state and any log the wrapper has a null handle and
owns nothing; and a second `clear()` changes neither the wrapper nor the destroy log. -/
theorem resource_clear_idempotent (T : VulkanType) (r : resource T) (log : List DestroyCall) :
    (resource.ctorDefault : resource T).value_ = 0 ∧
    (resource.ctorDefault : resource T).ownsResource = false ∧
    (r.clear log).1.value_ = 0 ∧
    (r.clear log).1.ownsResource = false ∧
    (r.clear log).1.clear (r.clear log).2 = r.clear log := by
  refine ⟨rfl, rfl, rfl, rfl, ?_⟩
  simp [resource.clear]

/-- C4: the destructor of a wrapper appends exactly the call
`destroy<T>(dev_, value_)` to the log if the wrapper owns and its handle is non-null
and leaves the log untouched if not; a wrapper built from an externally supplied handle
makes no destroy call when it is destroyed, cleared or assigned to, and a wrapper
destroyed after `clear()` makes no further destroy call. -/
theorem resource_dtor_destroys_iff (T : VulkanType) (r : resource T) (log : List DestroyCall)
    (value dev : Nat) :
    (r.dtor log = log ++ [{ type := T, dev := r.dev_, value := r.value_ }] ↔
      (r.ownsResource = true ∧ r.value_ ≠ 0)) ∧
    (r.dtor log = log ↔ ¬ (r.ownsResource = true ∧ r.value_ ≠ 0)) ∧
    (resource.ctorValue value dev : resource T).dtor log = log ∧
    ((resource.ctorValue value dev : resource T).clear log).2 = log ∧
    ((resource.ctorValue value dev : resource T).moveAssign r log).2.2 = log ∧
    (r.clear log).1.dtor (r.clear log).2 = (r.clear log).2 := by
  refine ⟨?_, ?_, ?_, ?_, ?_, ?_⟩
  · unfold resource.dtor
    by_cases h1 : r.value_ = 0 <;> by_cases h2 : r.ownsResource = true <;> simp [h1, h2]
  · unfold resource.dtor
    by_cases h1 : r.value_ = 0 <;> by_cases h2 : r.ownsResource = true <;> simp [h1, h2]
  · simp [resource.dtor, resource.ctorValue]
  · simp [resource.clear, resource.ctorValue]
  · simp [resource.moveAssign, resource.ctorValue]
  · simp [resource.dtor, resource.clear]

/-- The semaphore factory checks the driver status: a non-zero status `s` of
`vkCreateSemaphore` is thrown as `error(s)` and no wrapper results; on success the
wrapper holds the created handle and owns it. -/
theorem resource_ctorDevice_semaphore (dev : Nat) (reply : CreateReply) :
    (reply.err ≠ 0 →
      resource.ctorDevice .VkSemaphore dev reply = .error (.error reply.err)) ∧
    (reply.err = 0 →
      resource.ctorDevice .VkSemaphore dev reply =
        .ok { value_ := reply.handle, ownsResource := true, dev_ := dev }) := by
  constructor <;> intro h <;> simp [resource.ctorDevice, create, h]

/-- C5, the code at the failing input: when `vkCreateInstance` fails with
`VK_ERROR_INCOMPATIBLE_DRIVER` (-9) and leaves `inst` null, constructing the instance
wrapper raises nothing and yields a wrapper that owns a null handle. -/
theorem resource_ctorDevice_instance_ignores_status :
    resource.ctorDevice .VkInstance 0 { err := -9, handle := 0 } =
      .ok { value_ := 0, ownsResource := true, dev_ := 0 } := by
  rfl


/-- The bit test `typeBits & (1<<i)` of the loop is the test of bit `i`, for `i < 32`. -/
theorem device.bitTest_iff (typeBits i : Nat) (hi : i < 32) :
    typeBits &&& ((1 <<< i) % 2 ^ 32) ≠ 0 ↔ typeBits.testBit i = true := by
  have hlt : 2 ^ i < 2 ^ 32 := Nat.pow_lt_pow_right (by decide) hi
  rw [Nat.one_shiftLeft, Nat.mod_eq_of_lt hlt, Nat.and_two_pow]
  cases h : typeBits.testBit i <;> simp [Bool.toNat]

/-- The loop started at `i` with `32 - i` iterations left returns the first
qualifying index from `i` on, or the sentinel when there is none. -/
theorem device.getMemoryType_loop_spec (p : VkPhysicalDeviceMemoryProperties)
    (typeBits properties : Nat) :
    ∀ n i, i + n = 32 →
      (device.getMemoryType.loop p typeBits properties n i < 32 ∧
        i ≤ device.getMemoryType.loop p typeBits properties n i ∧
        device.qualifies p typeBits properties
          (device.getMemoryType.loop p typeBits properties n i) ∧
        ∀ j, i ≤ j → j < device.getMemoryType.loop p typeBits properties n i →
          ¬ device.qualifies p typeBits properties j) ∨
      (device.getMemoryType.loop p typeBits properties n i = 0xFFFFFFFF ∧
        ∀ j, i ≤ j → j < 32 → ¬ device.qualifies p typeBits properties j) := by
  intro n
  induction n with
  | zero =>
    intro i hi
    right
    refine ⟨rfl, ?_⟩
    intro j h1 h2
    omega
  | succ n ih =>
    intro i hi
    have hi32 : i < 32 := by omega
    have hq : device.qualifies p typeBits properties i ↔
        (typeBits &&& ((1 <<< i) % 2 ^ 32) ≠ 0 ∧
          (p.memoryTypes i).propertyFlags &&& properties = properties) := by
      unfold device.qualifies
      rw [device.bitTest_iff typeBits i hi32]
    by_cases hqi : device.qualifies p typeBits properties i
    · left
      have h := hq.mp hqi
      have hl : device.getMemoryType.loop p typeBits properties (n + 1) i = i := by
        simp only [device.getMemoryType.loop]
        rw [if_pos h.1, if_pos h.2]
      rw [hl]
      refine ⟨hi32, le_refl _, hqi, ?_⟩
      intro j h1 h2
      omega
    · have hl : device.getMemoryType.loop p typeBits properties (n + 1) i =
          device.getMemoryType.loop p typeBits properties n (i + 1) := by
        simp only [device.getMemoryType.loop]
        by_cases hb : typeBits &&& ((1 <<< i) % 2 ^ 32) ≠ 0
        · rw [if_pos hb]
          have hf : ¬ ((p.memoryTypes i).propertyFlags &&& properties = properties) :=
            fun hf => hqi (hq.mpr ⟨hb, hf⟩)
          rw [if_neg hf]
        · rw [if_neg hb]
      rw [hl]
      have hstep : ∀ j, i ≤ j → ¬ (i + 1 ≤ j) → j = i := by
        intro j h1 h2
        omega
      rcases ih (i + 1) (by omega) with ⟨h1, h2, h3, h4⟩ | ⟨h1, h2⟩
      · left
        refine ⟨h1, by omega, h3, ?_⟩
        intro j hj1 hj2
        by_cases hj : i + 1 ≤ j
        · exact h4 j hj hj2
        · rw [hstep j hj1 hj]
          exact hqi
      · right
        refine ⟨h1, ?_⟩
        intro j hj1 hj2
        by_cases hj : i + 1 ≤ j
        · exact h2 j hj hj2
        · rw [hstep j hj1 hj]
          exact hqi

/-- C6: `getMemoryType` returns the smallest index below 32 whose bit is set in
`typeBits` and whose property flags contain `properties`; it returns `0xFFFFFFFF`
exactly when no index below 32 qualifies; so the result is below 32 or the sentinel. -/
theorem device_getMemoryType_first_match (p : VkPhysicalDeviceMemoryProperties)
    (typeBits properties : Nat) :
    ((device.getMemoryType p typeBits properties < 32 ∧
        device.qualifies p typeBits properties (device.getMemoryType p typeBits properties) ∧
        ∀ j, j < device.getMemoryType p typeBits properties →
          ¬ device.qualifies p typeBits properties j) ∨
      (device.getMemoryType p typeBits properties = 0xFFFFFFFF ∧
        ∀ j, j < 32 → ¬ device.qualifies p typeBits properties j)) ∧
    (device.getMemoryType p typeBits properties = 0xFFFFFFFF ↔
      ∀ j, j < 32 → ¬ device.qualifies p typeBits properties j) ∧
    (device.getMemoryType p typeBits properties < 32 ∨
      device.getMemoryType p typeBits properties = 0xFFFFFFFF) := by
  unfold device.getMemoryType
  rcases device.getMemoryType_loop_spec p typeBits properties 32 0 rfl with
    ⟨h1, _, h3, h4⟩ | ⟨h1, h2⟩
  · refine ⟨Or.inl ⟨h1, h3, fun j hj => h4 j (Nat.zero_le j) hj⟩, ?_, Or.inl h1⟩
    constructor
    · intro h
      omega
    · intro h
      exact absurd h3 (h _ h1)
  · refine ⟨Or.inr ⟨h1, fun j hj => h2 j (Nat.zero_le j) hj⟩, ?_, Or.inr h1⟩
    constructor
    · intro _ j hj
      exact h2 j (Nat.zero_le j) hj
    · intro _
      exact h1

/-- C6 at a concrete table: with memory types 1 and 2 allowed by `typeBits = 0b0110`
and only type 2 carrying the required flag `2`, the result is index 2. -/
theorem device_getMemoryType_first_match_witness :
    device.getMemoryType { memoryTypes := fun i => { propertyFlags := if i = 2 then 6 else 0, heapIndex := 0 } } 6 2 = 2 ∧
    ((device.getMemoryType { memoryTypes := fun i => { propertyFlags := if i = 2 then 6 else 0, heapIndex := 0 } } 6 2 = 0xFFFFFFFF) ↔
      ∀ j, j < 32 → ¬ device.qualifies { memoryTypes := fun i => { propertyFlags := if i = 2 then 6 else 0, heapIndex := 0 } } 6 2 j) :=
  ⟨by decide,
   (device_getMemoryType_first_match { memoryTypes := fun i => { propertyFlags := if i = 2 then 6 else 0, heapIndex := 0 } } 6 2).2.1⟩


/-- C7: `getSupportedDepthFormat` returns the first of D32_SFLOAT_S8_UINT, D32_SFLOAT,
D24_UNORM_S8_UINT, D16_UNORM_S8_UINT, D16_UNORM (in this order) whose optimal-tiling
features include the depth-stencil-attachment bit, and `VK_FORMAT_UNDEFINED` exactly
when none of the five has it; the function is total, it has no failure result. -/
theorem device_getSupportedDepthFormat_first (formatProps : VkFormat → VkFormatProperties) :
    device.getSupportedDepthFormat formatProps =
      (if device.depthStencilCapable formatProps .VK_FORMAT_D32_SFLOAT_S8_UINT then
        .VK_FORMAT_D32_SFLOAT_S8_UINT
      else if device.depthStencilCapable formatProps .VK_FORMAT_D32_SFLOAT then
        .VK_FORMAT_D32_SFLOAT
      else if device.depthStencilCapable formatProps .VK_FORMAT_D24_UNORM_S8_UINT then
        .VK_FORMAT_D24_UNORM_S8_UINT
      else if device.depthStencilCapable formatProps .VK_FORMAT_D16_UNORM_S8_UINT then
        .VK_FORMAT_D16_UNORM_S8_UINT
      else if device.depthStencilCapable formatProps .VK_FORMAT_D16_UNORM then
        .VK_FORMAT_D16_UNORM
      else .VK_FORMAT_UNDEFINED) ∧
    (device.getSupportedDepthFormat formatProps = .VK_FORMAT_UNDEFINED ↔
      (¬ device.depthStencilCapable formatProps .VK_FORMAT_D32_SFLOAT_S8_UINT ∧
       ¬ device.depthStencilCapable formatProps .VK_FORMAT_D32_SFLOAT ∧
       ¬ device.depthStencilCapable formatProps .VK_FORMAT_D24_UNORM_S8_UINT ∧
       ¬ device.depthStencilCapable formatProps .VK_FORMAT_D16_UNORM_S8_UINT ∧
       ¬ device.depthStencilCapable formatProps .VK_FORMAT_D16_UNORM)) := by
  have key : device.getSupportedDepthFormat formatProps =
      (if device.depthStencilCapable formatProps .VK_FORMAT_D32_SFLOAT_S8_UINT then
        .VK_FORMAT_D32_SFLOAT_S8_UINT
      else if device.depthStencilCapable formatProps .VK_FORMAT_D32_SFLOAT then
        .VK_FORMAT_D32_SFLOAT
      else if device.depthStencilCapable formatProps .VK_FORMAT_D24_UNORM_S8_UINT then
        .VK_FORMAT_D24_UNORM_S8_UINT
      else if device.depthStencilCapable formatProps .VK_FORMAT_D16_UNORM_S8_UINT then
        .VK_FORMAT_D16_UNORM_S8_UINT
      else if device.depthStencilCapable formatProps .VK_FORMAT_D16_UNORM then
        .VK_FORMAT_D16_UNORM
      else .VK_FORMAT_UNDEFINED) := by
    simp only [device.getSupportedDepthFormat, device.depthFormats,
      device.getSupportedDepthFormat.loop, device.depthStencilCapable]
  refine ⟨key, ?_⟩
  rw [key]
  split_ifs with h1 h2 h3 h4 h5 <;> simp_all

/-- The present-mode loop, started with a chosen mode other than mailbox, ends with
mailbox if mailbox is still to come, else with immediate if immediate is still to
come, else with the mode chosen so far. -/
theorem swapChain.swapchainPresentMode_loop_spec (presentModes : List VkPresentModeKHR) :
    ∀ chosen : VkPresentModeKHR, chosen ≠ .VK_PRESENT_MODE_MAILBOX_KHR →
      swapChain.swapchainPresentMode.loop chosen presentModes =
        (if VkPresentModeKHR.VK_PRESENT_MODE_MAILBOX_KHR ∈ presentModes then
          .VK_PRESENT_MODE_MAILBOX_KHR
        else if VkPresentModeKHR.VK_PRESENT_MODE_IMMEDIATE_KHR ∈ presentModes then
          .VK_PRESENT_MODE_IMMEDIATE_KHR
        else chosen) := by
  induction presentModes with
  | nil =>
    intro chosen _
    simp [swapChain.swapchainPresentMode.loop]
  | cons mode rest ih =>
    intro chosen hc
    simp only [swapChain.swapchainPresentMode.loop]
    by_cases hm : mode = .VK_PRESENT_MODE_MAILBOX_KHR
    · simp [hm]
    · rw [if_neg hm]
      by_cases hi : mode = .VK_PRESENT_MODE_IMMEDIATE_KHR
      · rw [if_pos ⟨hc, hi⟩, ih _ (by decide)]
        subst hi
        by_cases hr : VkPresentModeKHR.VK_PRESENT_MODE_MAILBOX_KHR ∈ rest <;> simp [hr]
      · rw [if_neg (fun h => hi h.2), ih _ hc]
        have h1 : (VkPresentModeKHR.VK_PRESENT_MODE_MAILBOX_KHR ∈ mode :: rest) ↔
            VkPresentModeKHR.VK_PRESENT_MODE_MAILBOX_KHR ∈ rest := by
          simp [Ne.symm hm]
        have h2 : (VkPresentModeKHR.VK_PRESENT_MODE_IMMEDIATE_KHR ∈ mode :: rest) ↔
            VkPresentModeKHR.VK_PRESENT_MODE_IMMEDIATE_KHR ∈ rest := by
          simp [Ne.symm hi]
        simp only [h1, h2]

/-- C8: the present mode the constructor resolves, and puts in the creation request, is
mailbox if mailbox occurs in the supported list, otherwise immediate if immediate
occurs, otherwise fifo; the lists {fifo}, {fifo, immediate} and {fifo, mailbox,
immediate} resolve to fifo, immediate and mailbox. -/
theorem swapChain_presentMode_priority (presentModes : List VkPresentModeKHR)
    (oldSwapchain width height surface : Nat) (surfCaps : VkSurfaceCapabilitiesKHR) :
    swapChain.swapchainPresentMode presentModes =
      (if VkPresentModeKHR.VK_PRESENT_MODE_MAILBOX_KHR ∈ presentModes then
        .VK_PRESENT_MODE_MAILBOX_KHR
      else if VkPresentModeKHR.VK_PRESENT_MODE_IMMEDIATE_KHR ∈ presentModes then
        .VK_PRESENT_MODE_IMMEDIATE_KHR
      else .VK_PRESENT_MODE_FIFO_KHR) ∧
    (swapChain.swapchainCI oldSwapchain width height surface surfCaps presentModes).presentMode =
      swapChain.swapchainPresentMode presentModes ∧
    swapChain.swapchainPresentMode [.VK_PRESENT_MODE_FIFO_KHR] = .VK_PRESENT_MODE_FIFO_KHR ∧
    swapChain.swapchainPresentMode [.VK_PRESENT_MODE_FIFO_KHR, .VK_PRESENT_MODE_IMMEDIATE_KHR] =
      .VK_PRESENT_MODE_IMMEDIATE_KHR ∧
    swapChain.swapchainPresentMode
        [.VK_PRESENT_MODE_FIFO_KHR, .VK_PRESENT_MODE_MAILBOX_KHR, .VK_PRESENT_MODE_IMMEDIATE_KHR] =
      .VK_PRESENT_MODE_MAILBOX_KHR := by
  refine ⟨?_, rfl, by decide, by decide, by decide⟩
  exact swapChain.swapchainPresentMode_loop_spec presentModes _ (by decide)


/-- The constructor succeeds when every driver call it makes succeeds, and throws
`error(err)` with the first non-zero status otherwise. -/
theorem swapChain.ctorCreate_ok (dev : device) (width height surface : Nat)
    (replies : SurfaceReplies)
    (hcaps : replies.capsErr = 0) (hcount : replies.countErr = 0)
    (hmodes : replies.modesErr = 0) (hcreate : replies.createChain.err = 0) :
    swapChain.ctorCreate dev width height surface replies =
      .ok ({ toResource := { value_ := replies.createChain.handle, ownsResource := true,
                             dev_ := dev.dev }
             width_ := (swapChain.swapchainExtent width height replies.surfCaps).2.1
             height_ := (swapChain.swapchainExtent width height replies.surfCaps).2.2
             swapchainImages := []
             swapchainViews := [] },
           swapChain.swapchainCI 0 width height surface replies.surfCaps replies.presentModes) := by
  simp [swapChain.ctorCreate, resource.ctorDevice, create, resource.set, resource.get,
    hcaps, hcount, hmodes, hcreate]

/-- C9: when the driver calls of the constructor succeed, the swapchain is constructed,
and both the extent of the creation request and the reported `width()`/`height()` are
the requested width/height if the surface's current extent has the undefined-extent
value `0xFFFFFFFF` in its width, and the surface's current extent otherwise. -/
theorem swapChain_extent_resolution (dev : device) (width height surface : Nat)
    (replies : SurfaceReplies)
    (hcaps : replies.capsErr = 0) (hcount : replies.countErr = 0)
    (hmodes : replies.modesErr = 0) (hcreate : replies.createChain.err = 0) :
    ∃ sc ci, swapChain.ctorCreate dev width height surface replies = .ok (sc, ci) ∧
      (replies.surfCaps.currentExtent.width = 0xFFFFFFFF →
        ci.imageExtent = { width := width, height := height } ∧
        sc.width = width ∧ sc.height = height) ∧
      (replies.surfCaps.currentExtent.width ≠ 0xFFFFFFFF →
        ci.imageExtent = replies.surfCaps.currentExtent ∧
        sc.width = replies.surfCaps.currentExtent.width ∧
        sc.height = replies.surfCaps.currentExtent.height) := by
  refine ⟨_, _, swapChain.ctorCreate_ok dev width height surface replies hcaps hcount hmodes
    hcreate, ?_, ?_⟩
  · intro h
    simp [swapChain.swapchainCI, swapChain.swapchainExtent, swapChain.width, swapChain.height, h]
  · intro h
    simp [swapChain.swapchainCI, swapChain.swapchainExtent, swapChain.width, swapChain.height, h]

/-- C9 at concrete inputs: a surface reporting the undefined extent and a request of
800 x 600. -/
theorem swapChain_extent_resolution_witness :
    ∃ sc ci,
      swapChain.ctorCreate { dev := 1, physicalDevice_ := 2 } 800 600 3
        { capsErr := 0, surfCaps := surfCapsOf 2 0 0xFFFFFFFF 0xFFFFFFFF, countErr := 0,
          modesErr := 0, presentModes := [.VK_PRESENT_MODE_FIFO_KHR],
          createChain := { err := 0, handle := 9 } } = .ok (sc, ci) ∧
      ((surfCapsOf 2 0 0xFFFFFFFF 0xFFFFFFFF).currentExtent.width = 0xFFFFFFFF →
        ci.imageExtent = { width := 800, height := 600 } ∧
        sc.width = 800 ∧ sc.height = 600) ∧
      ((surfCapsOf 2 0 0xFFFFFFFF 0xFFFFFFFF).currentExtent.width ≠ 0xFFFFFFFF →
        ci.imageExtent = (surfCapsOf 2 0 0xFFFFFFFF 0xFFFFFFFF).currentExtent ∧
        sc.width = (surfCapsOf 2 0 0xFFFFFFFF 0xFFFFFFFF).currentExtent.width ∧
        sc.height = (surfCapsOf 2 0 0xFFFFFFFF 0xFFFFFFFF).currentExtent.height) :=
  swapChain_extent_resolution { dev := 1, physicalDevice_ := 2 } 800 600 3
    { capsErr := 0, surfCaps := surfCapsOf 2 0 0xFFFFFFFF 0xFFFFFFFF, countErr := 0,
      modesErr := 0, presentModes := [.VK_PRESENT_MODE_FIFO_KHR],
      createChain := { err := 0, handle := 9 } } rfl rfl rfl rfl

/-- C10 as stated fails: for a surface with `minImageCount = 0xFFFFFFFF` and
`maxImageCount = 0` the 32-bit sum `minImageCount + 1` wraps around and the count
requested is 0, not `minImageCount + 1`. -/
theorem swapChain_imageCount_wraps :
    (surfCapsOf 0xFFFFFFFF 0 800 600).maxImageCount = 0 ∧
    swapChain.desiredNumberOfSwapchainImages (surfCapsOf 0xFFFFFFFF 0 800 600) = 0 ∧
    swapChain.desiredNumberOfSwapchainImages (surfCapsOf 0xFFFFFFFF 0 800 600) ≠
      (surfCapsOf 0xFFFFFFFF 0 800 600).minImageCount + 1 := by
  decide

/-- C10 amended: the count requested from the driver is `(minImageCount + 1) mod 2^32`
when `maxImageCount` is 0 or that value is at most `maxImageCount`, and `maxImageCount`
otherwise; it is the `minImageCount` field of the creation request; when
`maxImageCount` is non-zero it never exceeds it; and for `minImageCount < 0xFFFFFFFF`
it is `minImageCount + 1` or `maxImageCount` as the claim says. -/
theorem swapChain_imageCount_clamped (surfCaps : VkSurfaceCapabilitiesKHR)
    (oldSwapchain width height surface : Nat) (presentModes : List VkPresentModeKHR) :
    swapChain.desiredNumberOfSwapchainImages surfCaps =
      (if surfCaps.maxImageCount = 0 ∨
          (surfCaps.minImageCount + 1) % 2 ^ 32 ≤ surfCaps.maxImageCount then
        (surfCaps.minImageCount + 1) % 2 ^ 32
      else surfCaps.maxImageCount) ∧
    (swapChain.swapchainCI oldSwapchain width height surface surfCaps presentModes).minImageCount =
      swapChain.desiredNumberOfSwapchainImages surfCaps ∧
    (surfCaps.maxImageCount ≠ 0 →
      swapChain.desiredNumberOfSwapchainImages surfCaps ≤ surfCaps.maxImageCount) ∧
    (surfCaps.minImageCount < 0xFFFFFFFF →
      swapChain.desiredNumberOfSwapchainImages surfCaps =
        (if surfCaps.maxImageCount = 0 ∨ surfCaps.minImageCount + 1 ≤ surfCaps.maxImageCount then
          surfCaps.minImageCount + 1
        else surfCaps.maxImageCount)) := by
  refine ⟨?_, rfl, ?_, ?_⟩
  · unfold swapChain.desiredNumberOfSwapchainImages
    simp only []
    split_ifs <;> omega
  · intro h
    unfold swapChain.desiredNumberOfSwapchainImages
    simp only []
    split_ifs <;> omega
  · intro h
    unfold swapChain.desiredNumberOfSwapchainImages
    simp only []
    have hm : (surfCaps.minImageCount + 1) % 2 ^ 32 = surfCaps.minImageCount + 1 :=
      Nat.mod_eq_of_lt (by omega)
    rw [hm]
    split_ifs <;> omega

/-- C10 amended, at concrete inputs: a surface with minimum 2 and maximum 2 is asked
for 2 images, and one with minimum 2 and no maximum for 3. -/
theorem swapChain_imageCount_clamped_witness :
    swapChain.desiredNumberOfSwapchainImages (surfCapsOf 2 2 800 600) ≤ 2 ∧
    swapChain.desiredNumberOfSwapchainImages (surfCapsOf 2 0 800 600) = 3 :=
  ⟨(swapChain_imageCount_clamped (surfCapsOf 2 2 800 600) 0 800 600 3 []).2.2.1 (by decide),
   ((swapChain_imageCount_clamped (surfCapsOf 2 0 800 600) 0 800 600 3 []).2.2.2
      (by decide)).trans (by decide)⟩


/-! ### The ownership invariant of a population of wrappers -/

namespace Heap

variable {T : VulkanType}

end Heap


/-- An operation is carried out exactly when the objects it names are live and, for a
move-assignment, distinct; constructions are always carried out. -/
theorem Heap.step_isSome (T : VulkanType) (h : Heap T) (op : Op) :
    (h.step op).isSome = true ↔
      (match op with
       | .moveAssign i j => i ≠ j ∧ (h.obj i).isSome = true ∧ (h.obj j).isSome = true
       | .clear i => (h.obj i).isSome = true
       | .dtor i => (h.obj i).isSome = true
       | _ => True) := by
  cases op with
  | ctorDefault => simp [Heap.step]
  | ctorValue value dev => simp [Heap.step]
  | ctorDevice dev reply =>
    simp only [Heap.step]
    cases resource.ctorDevice T dev reply <;> simp
  | moveAssign i j =>
    simp only [Heap.step]
    by_cases hij : i = j
    · simp [hij]
    · cases h.obj i <;> cases h.obj j <;> simp [hij]
  | clear i =>
    simp only [Heap.step]
    cases h.obj i <;> simp
  | dtor i =>
    simp only [Heap.step]
    cases h.obj i <;> simp

/-- C20: the message of `error(err)` is the fixed name of `err` for each of the 23 codes
of the lookup table (`VK_ERROR_OUT_OF_DATE_KHR` and `VK_SUBOPTIMAL_KHR` map to their own
names), it is "UNKNOWN ERROR" for every code outside the table, and two different codes
of the table never have the same name. -/
theorem error_message_table :
    error.table.length = 23 ∧
    (∀ p, p ∈ error.table → (Exception.error p.1).message = p.2) ∧
    (∀ err : VkResult, (∀ p, p ∈ error.table → p.1 ≠ err) →
      (Exception.error err).message = "UNKNOWN ERROR") ∧
    (∀ p q, p ∈ error.table → q ∈ error.table → p.1 ≠ q.1 →
      (Exception.error p.1).message ≠ (Exception.error q.1).message) ∧
    (Exception.error VK_ERROR_OUT_OF_DATE_KHR).message = "VK_ERROR_OUT_OF_DATE_KHR" ∧
    (Exception.error VK_SUBOPTIMAL_KHR).message = "VK_SUBOPTIMAL_KHR" := by
  have hall : ∀ p, p ∈ error.table → (Exception.error p.1).message = p.2 := by
    decide
  have hnames : (error.table.map Prod.snd).Nodup := by
    decide
  refine ⟨rfl, hall, ?_, ?_, by decide, by decide⟩
  · intro err h
    have hc : ∀ c, c ∈ error.table.map Prod.fst → ¬ (err = c) := by
      intro c hm e
      obtain ⟨p, hp, hpc⟩ := List.mem_map.mp hm
      exact h p hp (by rw [hpc, e])
    simp only [error.table, List.map, List.mem_cons, forall_eq_or_imp] at hc
    simp only [Exception.message, error.what]
    simp only [hc, if_false]
  · intro p q hp hq hpq hmsg
    rw [hall p hp, hall q hq] at hmsg
    apply hpq
    have hinj := List.inj_on_of_nodup_map hnames hp hq hmsg
    rw [hinj]


/-- C14: `present(queue, imageIndex)` makes exactly one driver call, a present request
naming one chain (the handle of this swapchain), the given image index and no wait
semaphore; it returns normally exactly when the driver status is 0 and throws
`error(s)` for every other status `s`, among them `VK_ERROR_OUT_OF_DATE_KHR` and
`VK_SUBOPTIMAL_KHR`. -/
theorem swapChain_present_once (self : swapChain) (queue imageIndex : Nat) (s : VkResult) :
    (swapChain.present self queue imageIndex s).2 =
      [.vkQueuePresentKHR queue
        { waitSemaphoreCount := 0, pWaitSemaphores := [], swapchainCount := 1,
          pSwapchains := [self.toResource.value_], pImageIndices := [imageIndex],
          pResults := [] }] ∧
    ((swapChain.present self queue imageIndex s).1 = .ok () ↔ s = 0) ∧
    ((swapChain.present self queue imageIndex s).1 = .error (.error s) ↔ s ≠ 0) ∧
    (swapChain.present self queue imageIndex VK_ERROR_OUT_OF_DATE_KHR).1 =
      .error (.error VK_ERROR_OUT_OF_DATE_KHR) ∧
    (swapChain.present self queue imageIndex VK_SUBOPTIMAL_KHR).1 =
      .error (.error VK_SUBOPTIMAL_KHR) := by
  refine ⟨?_, ?_, ?_, rfl, rfl⟩
  · unfold swapChain.present
    by_cases h : s = 0 <;> simp [h, resource.get]
  · unfold swapChain.present
    by_cases h : s = 0 <;> simp [h]
  · unfold swapChain.present
    by_cases h : s = 0 <;> simp [h]

/-- C15 as stated fails: for the transition undefined -> color-attachment-optimal the
source access mask of the barrier is transfer-read, not the mask host-write or
transfer-write derived from the old layout. -/
theorem setImageLayout_color_attachment_overrides_src :
    (cmdBuffer.setImageLayout.imageMemoryBarrier 1 VK_IMAGE_ASPECT_COLOR_BIT
        .VK_IMAGE_LAYOUT_UNDEFINED .VK_IMAGE_LAYOUT_COLOR_ATTACHMENT_OPTIMAL).srcAccessMask =
      VK_ACCESS_TRANSFER_READ_BIT ∧
    (cmdBuffer.setImageLayout.imageMemoryBarrier 1 VK_IMAGE_ASPECT_COLOR_BIT
        .VK_IMAGE_LAYOUT_UNDEFINED .VK_IMAGE_LAYOUT_COLOR_ATTACHMENT_OPTIMAL).srcAccessMask ≠
      oldLayoutAccessMask .VK_IMAGE_LAYOUT_UNDEFINED := by
  decide

/-- C15 amended: the source access mask of the barrier built by `setImageLayout` is the
mask derived from the old layout, except that a new layout transfer-src-optimal ORs
transfer-read into it, a new layout color-attachment-optimal replaces it by
transfer-read, and a new layout shader-read-only-optimal replaces it by host-write or
transfer-write. -/
theorem setImageLayout_srcAccessMask (image aspectMask : Nat)
    (oldLayout newLayout : VkImageLayout) :
    (cmdBuffer.setImageLayout.imageMemoryBarrier image aspectMask oldLayout
        newLayout).srcAccessMask =
      (if newLayout = .VK_IMAGE_LAYOUT_TRANSFER_SRC_OPTIMAL then
        oldLayoutAccessMask oldLayout ||| VK_ACCESS_TRANSFER_READ_BIT
      else if newLayout = .VK_IMAGE_LAYOUT_COLOR_ATTACHMENT_OPTIMAL then
        VK_ACCESS_TRANSFER_READ_BIT
      else if newLayout = .VK_IMAGE_LAYOUT_SHADER_READ_ONLY_OPTIMAL then
        VK_ACCESS_HOST_WRITE_BIT ||| VK_ACCESS_TRANSFER_WRITE_BIT
      else oldLayoutAccessMask oldLayout) := by
  cases oldLayout <;> cases newLayout <;> rfl

/-- C16: the destination access mask of the barrier built by `setImageLayout` is the
table value of the new layout, whatever the old layout; the transition undefined ->
present-source has source mask host-write or transfer-write and destination mask 0; and
the call records exactly one pipeline barrier command, which carries exactly that one
image barrier, and has no failure result. -/
theorem setImageLayout_dstAccessMask (self : resource .VkCommandBuffer) (image aspectMask : Nat)
    (oldLayout newLayout : VkImageLayout) :
    (cmdBuffer.setImageLayout.imageMemoryBarrier image aspectMask oldLayout
        newLayout).dstAccessMask = newLayoutAccessMask newLayout ∧
    newLayoutAccessMask .VK_IMAGE_LAYOUT_DEPTH_STENCIL_ATTACHMENT_OPTIMAL =
      VK_ACCESS_DEPTH_STENCIL_ATTACHMENT_WRITE_BIT ∧
    (cmdBuffer.setImageLayout.imageMemoryBarrier image aspectMask
        .VK_IMAGE_LAYOUT_UNDEFINED .VK_IMAGE_LAYOUT_PRESENT_SRC_KHR).srcAccessMask =
      VK_ACCESS_HOST_WRITE_BIT ||| VK_ACCESS_TRANSFER_WRITE_BIT ∧
    (cmdBuffer.setImageLayout.imageMemoryBarrier image aspectMask
        .VK_IMAGE_LAYOUT_UNDEFINED .VK_IMAGE_LAYOUT_PRESENT_SRC_KHR).dstAccessMask = 0 ∧
    cmdBuffer.setImageLayout self image aspectMask oldLayout newLayout =
      [.vkCmdPipelineBarrier self.value_ VK_PIPELINE_STAGE_TOP_OF_PIPE_BIT
        VK_PIPELINE_STAGE_TOP_OF_PIPE_BIT 0 0 0
        [cmdBuffer.setImageLayout.imageMemoryBarrier image aspectMask oldLayout newLayout]] := by
  refine ⟨?_, rfl, rfl, rfl, rfl⟩
  cases oldLayout <;> cases newLayout <;>
    first
    | rfl
    | simp [cmdBuffer.setImageLayout.imageMemoryBarrier, newLayoutAccessMask]

/-- C17 as stated fails: `begin` takes `int` arguments and stores them in `uint32_t`
extents, so for width -1 and height -600 the render area and the scissor have extent
4294967295 x 4294966696, which is not (width, height). -/
theorem cmdBuffer_begin_negative_extent :
    cmdBuffer.begin { value_ := 4, ownsResource := false, dev_ := 1 } 2 3 (-1) (-600) =
      [ .vkBeginCommandBuffer 4,
        .vkCmdBeginRenderPass 4
          { renderPass := 2
            framebuffer := 3
            renderArea := { offset := { x := 0, y := 0 }
                            extent := { width := 4294967295, height := 4294966696 } }
            clearValueCount := 2
            pClearValues :=
              [ .color (.literal "0.025f") (.literal "0.025f") (.literal "0.025f")
                  (.literal "1.0f"),
                .depthStencil (.literal "1.0f") 0 ] }
          .VK_SUBPASS_CONTENTS_INLINE,
        .vkCmdSetViewport 4 0
          [{ x := .ofInt 0, y := .ofInt 0, width := .ofInt (-1), height := .ofInt (-600),
             minDepth := .ofInt 0, maxDepth := .ofInt 1 }],
        .vkCmdSetScissor 4 0
          [{ offset := { x := 0, y := 0 }
             extent := { width := 4294967295, height := 4294966696 } }] ] ∧
    ((4294967295 : Nat) : Int) ≠ -1 ∧ ((4294966696 : Nat) : Int) ≠ -600 := by
  decide

/-- C17 amended: `begin(renderPass, framebuffer, width, height)` records exactly four
commands, in this order: begin command buffer; begin render pass over the render area
of offset (0,0) and extent (width mod 2^32, height mod 2^32), with the two clear values
(the fixed colour, and depth 1 / stencil 0); set viewport at (0,0) of size
((float)width,(float)height); set scissor of offset (0,0) and extent (width mod 2^32,
height mod 2^32). The extents are (width, height) whenever these are not negative. -/
theorem cmdBuffer_begin_commands (self : resource .VkCommandBuffer)
    (renderPass framebuffer : Nat) (width height : Int) :
    cmdBuffer.begin self renderPass framebuffer width height =
      [ .vkBeginCommandBuffer self.value_,
        .vkCmdBeginRenderPass self.value_
          { renderPass := renderPass
            framebuffer := framebuffer
            renderArea := { offset := { x := 0, y := 0 }
                            extent := { width := toUint32 width, height := toUint32 height } }
            clearValueCount := 2
            pClearValues :=
              [ .color (.literal "0.025f") (.literal "0.025f") (.literal "0.025f")
                  (.literal "1.0f"),
                .depthStencil (.literal "1.0f") 0 ] }
          .VK_SUBPASS_CONTENTS_INLINE,
        .vkCmdSetViewport self.value_ 0
          [{ x := .ofInt 0, y := .ofInt 0, width := .ofInt width, height := .ofInt height,
             minDepth := .ofInt 0, maxDepth := .ofInt 1 }],
        .vkCmdSetScissor self.value_ 0
          [{ offset := { x := 0, y := 0 }
             extent := { width := toUint32 width, height := toUint32 height } }] ] ∧
    (toUint32 width : Int) = width % 2 ^ 32 ∧
    (toUint32 height : Int) = height % 2 ^ 32 ∧
    (0 ≤ width → width < 2 ^ 32 → (toUint32 width : Int) = width) ∧
    (0 ≤ height → height < 2 ^ 32 → (toUint32 height : Int) = height) := by
  have hmod : ∀ n : Int, (toUint32 n : Int) = n % 2 ^ 32 := by
    intro n
    unfold toUint32
    exact Int.toNat_of_nonneg (Int.emod_nonneg n (by decide))
  refine ⟨rfl, hmod width, hmod height, ?_, ?_⟩
  · intro h0 h1
    rw [hmod, Int.emod_eq_of_lt h0 h1]
  · intro h0 h1
    rw [hmod, Int.emod_eq_of_lt h0 h1]

/-- C17 amended, at concrete inputs: a frame of 800 x 600 has render area and scissor
extent 800 x 600. -/
theorem cmdBuffer_begin_commands_witness :
    (toUint32 800 : Int) = 800 ∧ (toUint32 600 : Int) = 600 :=
  ⟨(cmdBuffer_begin_commands { value_ := 4, ownsResource := false, dev_ := 1 } 2 3 800
      600).2.2.2.1 (by decide) (by decide),
   (cmdBuffer_begin_commands { value_ := 4, ownsResource := false, dev_ := 1 } 2 3 800
      600).2.2.2.2 (by decide) (by decide)⟩

/-- C18: `end(image)` records exactly three commands, in this order: end render pass;
one pipeline barrier carrying a single image barrier on `image`, from
color-attachment-optimal to present-source, with source access mask
color-attachment-write, destination access mask 0, the colour aspect, one mip level and
one layer; end command buffer. -/
theorem cmdBuffer_end_commands (self : resource .VkCommandBuffer) (image : Nat) :
    cmdBuffer.end_ self image =
      [ .vkCmdEndRenderPass self.value_,
        .vkCmdPipelineBarrier self.value_ VK_PIPELINE_STAGE_ALL_COMMANDS_BIT
          VK_PIPELINE_STAGE_TOP_OF_PIPE_BIT 0 0 0
          [{ srcAccessMask := VK_ACCESS_COLOR_ATTACHMENT_WRITE_BIT
             dstAccessMask := 0
             oldLayout := .VK_IMAGE_LAYOUT_COLOR_ATTACHMENT_OPTIMAL
             newLayout := .VK_IMAGE_LAYOUT_PRESENT_SRC_KHR
             srcQueueFamilyIndex := VK_QUEUE_FAMILY_IGNORED
             dstQueueFamilyIndex := VK_QUEUE_FAMILY_IGNORED
             image := image
             subresourceRange := { aspectMask := VK_IMAGE_ASPECT_COLOR_BIT, baseMipLevel := 0,
                                   levelCount := 1, baseArrayLayer := 0, layerCount := 1 } }],
        .vkEndCommandBuffer self.value_ ] := by
  rfl

/-- C19: `submit(sema, buffer)` makes exactly one driver call, a submission of one
submit record to this queue with a null fence; the record has wait-semaphore count 0
if `sema` is null and 1 otherwise, one command buffer, the given one, and no signal
semaphore; the call throws `error(err)` exactly when the driver status `err` is not 0
and returns normally otherwise. -/
theorem queue_submit_once (self : resource .VkQueue) (sema buffer : Nat) (err : VkResult) :
    (queue.submit self sema buffer err).2 =
      [.vkQueueSubmit self.value_
        [{ waitSemaphoreCount := if sema = 0 then 0 else 1
           pWaitSemaphores := [sema]
           pWaitDstStageMask := []
           commandBufferCount := 1
           pCommandBuffers := [buffer]
           signalSemaphoreCount := 0
           pSignalSemaphores := [] }] 0] ∧
    ((if sema = 0 then 0 else 1) = 0 ↔ sema = 0) ∧
    ((queue.submit self sema buffer err).1 = .error (.error err) ↔ err ≠ 0) ∧
    ((queue.submit self sema buffer err).1 = .ok () ↔ err = 0) := by
  refine ⟨?_, ?_, ?_, ?_⟩
  · unfold queue.submit
    by_cases h : err = 0 <;> by_cases hs : sema = 0 <;> simp [h, hs, resource.get]
  · by_cases hs : sema = 0 <;> simp [hs]
  · unfold queue.submit
    by_cases h : err = 0 <;> simp [h]
  · unfold queue.submit
    by_cases h : err = 0 <;> simp [h]


/-! ### The images and views of a swapchain -/

/-- Reading a vector of handles after one element was overwritten. -/
theorem getD_set_handle (l : List Nat) (i k a : Nat) :
    (l.set i a).getD k 0 = if k = i ∧ i < l.length then a else l.getD k 0 := by
  simp only [List.getD_eq_getElem?_getD, List.getElem?_set]
  by_cases h : i = k
  · subst h
    by_cases hl : i < l.length
    · simp [hl]
    · simp [hl, List.getElem?_eq_none (Nat.le_of_not_lt hl)]
  · have h2 : ¬ (k = i) := fun e => h e.symm
    simp [h, h2]

/-- A run of the view loop that ends normally leaves the chain handle, the size and the
images untouched, keeps the length of the view vector, overwrites the views of the
indices it visits with the handles the driver returned, and has made, for each visited
index, a view creation call over the image of that index. -/
theorem swapChain.build_images_loop_ok (d : Nat) (cb : resource .VkCommandBuffer)
    (views : Nat → CreateReply) :
    ∀ (n i : Nat) (self : swapChain) (calls : List VkCall) (sc : swapChain)
      (calls1 : List VkCall),
      swapChain.build_images.loop d cb views n i self calls = (.ok sc, calls1) →
      sc.toResource = self.toResource ∧ sc.width_ = self.width_ ∧ sc.height_ = self.height_ ∧
      sc.swapchainImages = self.swapchainImages ∧
      sc.swapchainViews.length = self.swapchainViews.length ∧
      (∀ k, k < i → sc.swapchainViews.getD k 0 = self.swapchainViews.getD k 0) ∧
      (∀ k, i ≤ k → k < i + n → k < self.swapchainViews.length →
        sc.swapchainViews.getD k 0 = (views k).handle) ∧
      (∀ k, i ≤ k → k < i + n →
        VkCall.vkCreateImageView d (swapChain.build_images.colorAttachmentView (self.image k))
          (views k).handle ∈ calls1) ∧
      (∀ c, c ∈ calls → c ∈ calls1) := by
  intro n
  induction n with
  | zero =>
    intro i self calls sc calls1 h
    simp only [swapChain.build_images.loop, Prod.mk.injEq, Except.ok.injEq] at h
    obtain ⟨h1, h2⟩ := h
    subst h1
    subst h2
    refine ⟨rfl, rfl, rfl, rfl, rfl, fun _ _ => rfl, ?_, ?_, fun _ hc => hc⟩
    · intro k h1 h2
      omega
    · intro k h1 h2
      omega
  | succ n ih =>
    intro i self calls sc calls1 h
    simp only [swapChain.build_images.loop] at h
    by_cases herr : (views i).err = 0
    · rw [if_neg (by simpa using herr)] at h
      obtain ⟨h1, h2, h3, h4, h5, h6, h7, h8, h9⟩ := ih (i + 1) _ _ sc calls1 h
      have himg : ∀ k, swapChain.image
          { self with swapchainViews := self.swapchainViews.set i (views i).handle } k =
          self.image k := fun _ => rfl
      refine ⟨h1, h2, h3, h4, ?_, ?_, ?_, ?_, ?_⟩
      · rw [h5]
        simp
      · intro k hk
        rw [h6 k (by omega), getD_set_handle, if_neg (by omega)]
      · intro k hk1 hk2 hk3
        by_cases hki : k = i
        · subst hki
          rw [h6 k (by omega), getD_set_handle, if_pos ⟨rfl, hk3⟩]
        · exact h7 k (by omega) (by omega) (by simpa using hk3)
      · intro k hk1 hk2
        by_cases hki : k = i
        · subst hki
          apply h9
          simp
        · have := h8 k (by omega) (by omega)
          rw [himg] at this
          exact this
      · intro c hc
        apply h9
        simp [hc]
    · rw [if_pos (by simpa using herr)] at h
      simp at h

/-- The view loop ends normally when every view creation it makes succeeds. -/
theorem swapChain.build_images_loop_succeeds (d : Nat) (cb : resource .VkCommandBuffer)
    (views : Nat → CreateReply) :
    ∀ (n i : Nat) (self : swapChain) (calls : List VkCall),
      (∀ k, i ≤ k → k < i + n → (views k).err = 0) →
      ∃ sc calls1, swapChain.build_images.loop d cb views n i self calls = (.ok sc, calls1) := by
  intro n
  induction n with
  | zero =>
    intro i self calls _
    exact ⟨self, calls, rfl⟩
  | succ n ih =>
    intro i self calls h
    simp only [swapChain.build_images.loop]
    rw [if_neg (by simpa using h i (le_refl i) (by omega))]
    exact ih (i + 1) _ _ (fun k h1 h2 => h k (by omega) (by omega))


/-- A first phase of the constructor that ends normally has seen only zero statuses and
yields an owning wrapper of the created chain with empty image and view vectors. -/
theorem swapChain.ctorCreate_ok_inv (dev : device) (width height surface : Nat)
    (replies : SurfaceReplies) (self : swapChain) (ci : VkSwapchainCreateInfoKHR)
    (h : swapChain.ctorCreate dev width height surface replies = .ok (self, ci)) :
    replies.capsErr = 0 ∧ replies.countErr = 0 ∧ replies.modesErr = 0 ∧
    replies.createChain.err = 0 ∧
    self.toResource =
      { value_ := replies.createChain.handle, ownsResource := true, dev_ := dev.dev } ∧
    self.swapchainImages = [] ∧ self.swapchainViews = [] ∧
    ci = swapChain.swapchainCI 0 width height surface replies.surfCaps replies.presentModes := by
  by_cases h1 : replies.capsErr = 0
  · by_cases h2 : replies.countErr = 0
    · by_cases h3 : replies.modesErr = 0
      · by_cases h4 : replies.createChain.err = 0
        · rw [swapChain.ctorCreate_ok dev width height surface replies h1 h2 h3 h4] at h
          simp only [Except.ok.injEq, Prod.mk.injEq] at h
          obtain ⟨hs, hc⟩ := h
          subst hs
          exact ⟨h1, h2, h3, h4, rfl, rfl, rfl, hc.symm⟩
        · simp [swapChain.ctorCreate, resource.ctorDevice, create, h1, h2, h3, h4] at h
      · simp [swapChain.ctorCreate, resource.ctorDevice, create, h1, h2, h3] at h
    · simp [swapChain.ctorCreate, resource.ctorDevice, create, h1, h2] at h
  · simp [swapChain.ctorCreate, resource.ctorDevice, create, h1] at h

/-- A call of `build_images` on an object without images that ends normally has seen
zero statuses from both enumeration calls and has run the view loop over the images
the driver wrote. -/
theorem swapChain.build_images_ok_inv (self : swapChain) (buf : Nat) (imgs : ImagesReplies)
    (sc : swapChain) (calls : List VkCall)
    (himg : self.swapchainImages = []) (hview : self.swapchainViews = [])
    (h : swapChain.build_images self buf imgs = (.ok sc, calls)) :
    imgs.countErr = 0 ∧ imgs.imagesErr = 0 ∧
    swapChain.build_images.loop self.toResource.dev_
      (resource.ctorValue buf self.toResource.dev_) imgs.views
      (imgs.images.take imgs.imageCount).length 0
      { self with
        swapchainImages := imgs.images.take imgs.imageCount ++
          (List.replicate imgs.imageCount 0).drop (imgs.images.take imgs.imageCount).length
        swapchainViews := List.replicate imgs.imageCount 0 } [] = (.ok sc, calls) := by
  unfold swapChain.build_images at h
  by_cases h1 : imgs.countErr = 0
  · by_cases h2 : imgs.imagesErr = 0
    · refine ⟨h1, h2, ?_⟩
      simpa [h1, h2, himg, hview, vectorResize, resource.dev] using h
    · simp [h1, h2] at h
  · simp [h1] at h

/-- C11: the constructor ends normally when every driver call it makes succeeds; and
after every construction that ends normally the image vector and the view vector both
have the length the driver reported for the chain, whatever count was requested, and,
the driver enumerating as many images as it reported, `image(i)` is the i-th image
enumerated and `view(i)` is the handle returned by a view creation call whose request
names `image(i)` as its image (a 2D colour view with identity RGBA mapping, one mip
level and one layer), for every `i` below that count. -/
theorem swapChain_images_match_backend (dev : device) (width height surface buf : Nat)
    (replies : SurfaceReplies) (imgs : ImagesReplies) :
    (replies.capsErr = 0 → replies.countErr = 0 → replies.modesErr = 0 →
      replies.createChain.err = 0 → imgs.countErr = 0 → imgs.imagesErr = 0 →
      (∀ k, k < imgs.imageCount → (imgs.views k).err = 0) →
      ∃ sc calls, swapChain.ctor dev width height surface buf replies imgs = (.ok sc, calls)) ∧
    (∀ sc calls, swapChain.ctor dev width height surface buf replies imgs = (.ok sc, calls) →
      sc.imageCount = imgs.imageCount ∧ sc.swapchainViews.length = imgs.imageCount ∧
      (imgs.images.length = imgs.imageCount →
        ∀ i, i < imgs.imageCount →
          sc.image i = imgs.images.getD i 0 ∧ sc.view i = (imgs.views i).handle ∧
          VkCall.vkCreateImageView dev.dev
            { flags := 0
              image := sc.image i
              viewType := .VK_IMAGE_VIEW_TYPE_2D
              format := .VK_FORMAT_B8G8R8A8_UNORM
              components := { r := .VK_COMPONENT_SWIZZLE_R, g := .VK_COMPONENT_SWIZZLE_G,
                              b := .VK_COMPONENT_SWIZZLE_B, a := .VK_COMPONENT_SWIZZLE_A }
              subresourceRange := { aspectMask := VK_IMAGE_ASPECT_COLOR_BIT, baseMipLevel := 0,
                                    levelCount := 1, baseArrayLayer := 0, layerCount := 1 } }
            (sc.view i) ∈ calls)) := by
  constructor
  · intro h1 h2 h3 h4 h5 h6 h7
    have hlen : (imgs.images.take imgs.imageCount).length ≤ imgs.imageCount := by
      rw [List.length_take]
      omega
    obtain ⟨sc, calls1, hloop⟩ := swapChain.build_images_loop_succeeds dev.dev
      (resource.ctorValue buf dev.dev) imgs.views (imgs.images.take imgs.imageCount).length 0
      { toResource := { value_ := replies.createChain.handle, ownsResource := true,
                        dev_ := dev.dev }
        width_ := (swapChain.swapchainExtent width height replies.surfCaps).2.1
        height_ := (swapChain.swapchainExtent width height replies.surfCaps).2.2
        swapchainImages := imgs.images.take imgs.imageCount ++
          (List.replicate imgs.imageCount 0).drop (imgs.images.take imgs.imageCount).length
        swapchainViews := List.replicate imgs.imageCount 0 } []
      (fun k _ hk => h7 k (by omega))
    have hbuild : swapChain.build_images
        { toResource := { value_ := replies.createChain.handle, ownsResource := true,
                          dev_ := dev.dev }
          width_ := (swapChain.swapchainExtent width height replies.surfCaps).2.1
          height_ := (swapChain.swapchainExtent width height replies.surfCaps).2.2
          swapchainImages := []
          swapchainViews := [] } buf imgs = (.ok sc, calls1) := by
      simp only [swapChain.build_images, h5, h6, vectorResize, resource.dev]
      simp only [ne_eq, not_true_eq_false, if_false, List.take_nil, List.length_nil,
        Nat.sub_zero, List.nil_append]
      exact hloop
    refine ⟨sc, [VkCall.vkCreateSwapchainKHR dev.dev
      (swapChain.swapchainCI 0 width height surface replies.surfCaps replies.presentModes)
      replies.createChain.handle] ++ calls1, ?_⟩
    unfold swapChain.ctor
    rw [swapChain.ctorCreate_ok dev width height surface replies h1 h2 h3 h4]
    dsimp only
    rw [hbuild]
    rfl
  · intro sc calls h
    unfold swapChain.ctor at h
    cases hc : swapChain.ctorCreate dev width height surface replies with
    | error e =>
      rw [hc] at h
      simp at h
    | ok p =>
      obtain ⟨self, ci⟩ := p
      rw [hc] at h
      dsimp only at h
      obtain ⟨_, _, _, _, hres, himg, hview, _⟩ :=
        swapChain.ctorCreate_ok_inv dev width height surface replies self ci hc
      cases hb : swapChain.build_images self buf imgs with
      | mk r bcalls =>
        rw [hb] at h
        cases r with
        | error e => simp at h
        | ok built =>
          simp only [Prod.mk.injEq, Except.ok.injEq] at h
          obtain ⟨hsc, hcalls⟩ := h
          subst hsc
          obtain ⟨_, _, hloop⟩ :=
            swapChain.build_images_ok_inv self buf imgs built bcalls himg hview hb
          obtain ⟨_, _, _, l4, l5, _, l7, l8, _⟩ :=
            swapChain.build_images_loop_ok _ _ _ _ _ _ _ _ _ hloop
          have hdev : self.toResource.dev_ = dev.dev := by rw [hres]
          have hlen : (imgs.images.take imgs.imageCount).length ≤ imgs.imageCount := by
            rw [List.length_take]
            omega
          refine ⟨?_, ?_, ?_⟩
          · unfold swapChain.imageCount
            rw [l4]
            simp only [List.length_append, List.length_drop, List.length_replicate]
            omega
          · rw [l5]
            simp
          · intro hcount i hi
            have htake : imgs.images.take imgs.imageCount = imgs.images := by
              rw [← hcount]
              exact List.take_length _
            rw [htake] at l4 l7 l8
            have hview_i : built.view i = (imgs.views i).handle := by
              unfold swapChain.view
              exact l7 i (Nat.zero_le i) (by omega) (by simpa using hi)
            have himage_i : built.image i = imgs.images.getD i 0 := by
              unfold swapChain.image
              rw [l4, hcount]
              simp
            refine ⟨himage_i, hview_i, ?_⟩
            have hmem := l8 i (Nat.zero_le i) (by omega)
            rw [hdev] at hmem
            have himg2 : swapChain.image
                { self with
                  swapchainImages := imgs.images ++
                    (List.replicate imgs.imageCount 0).drop imgs.images.length
                  swapchainViews := List.replicate imgs.imageCount 0 } i = built.image i := by
              unfold swapChain.image
              rw [l4]
            rw [himg2, ← hview_i] at hmem
            have hlit : swapChain.build_images.colorAttachmentView (built.image i) =
                { flags := 0
                  image := built.image i
                  viewType := .VK_IMAGE_VIEW_TYPE_2D
                  format := .VK_FORMAT_B8G8R8A8_UNORM
                  components := { r := .VK_COMPONENT_SWIZZLE_R, g := .VK_COMPONENT_SWIZZLE_G,
                                  b := .VK_COMPONENT_SWIZZLE_B, a := .VK_COMPONENT_SWIZZLE_A }
                  subresourceRange := { aspectMask := VK_IMAGE_ASPECT_COLOR_BIT,
                                        baseMipLevel := 0, levelCount := 1, baseArrayLayer := 0,
                                        layerCount := 1 } } := rfl
            rw [hlit] at hmem
            rw [← hcalls]
            simp [hmem]


/-- C11 at concrete inputs: two images are requested, the driver reports three, and the
constructed object has three images and three views, `image(2)` being the third image
enumerated, 23, and `view(2)` the view 33 that a creation call over image 23 returned. -/
theorem swapChain_images_match_backend_witness :
    (swapChain.swapchainCI 0 800 600 3 sampleSurfaceReplies.surfCaps
        sampleSurfaceReplies.presentModes).minImageCount = 2 ∧
    ∃ sc calls,
      swapChain.ctor { dev := 1, physicalDevice_ := 2 } 800 600 3 4 sampleSurfaceReplies
        sampleImagesReplies = (.ok sc, calls) ∧
      sc.imageCount = 3 ∧ sc.swapchainViews.length = 3 ∧ sc.image 2 = 23 ∧ sc.view 2 = 33 ∧
      VkCall.vkCreateImageView 1
        { flags := 0
          image := 23
          viewType := .VK_IMAGE_VIEW_TYPE_2D
          format := .VK_FORMAT_B8G8R8A8_UNORM
          components := { r := .VK_COMPONENT_SWIZZLE_R, g := .VK_COMPONENT_SWIZZLE_G,
                          b := .VK_COMPONENT_SWIZZLE_B, a := .VK_COMPONENT_SWIZZLE_A }
          subresourceRange := { aspectMask := VK_IMAGE_ASPECT_COLOR_BIT, baseMipLevel := 0,
                                levelCount := 1, baseArrayLayer := 0, layerCount := 1 } }
        33 ∈ calls := by
  obtain ⟨sc, calls, h⟩ :=
    (swapChain_images_match_backend { dev := 1, physicalDevice_ := 2 } 800 600 3 4
      sampleSurfaceReplies sampleImagesReplies).1 rfl rfl rfl rfl rfl rfl (fun _ _ => rfl)
  have hb := (swapChain_images_match_backend { dev := 1, physicalDevice_ := 2 } 800 600 3 4
      sampleSurfaceReplies sampleImagesReplies).2 sc calls h
  have h2 := hb.2.2 rfl 2 (by decide)
  have himg : sc.image 2 = 23 := h2.1
  have hview : sc.view 2 = 33 := h2.2.1
  have hmem := h2.2.2
  rw [himg, hview] at hmem
  exact ⟨by decide, sc, calls, h, hb.1, hb.2.1, himg, hview, hmem⟩

/-- The creation request of every construction has a null `oldSwapchain`: the handle
read from `*this` is the one `resource(dev)` has just initialised, and the factory of
`VkSwapchainKHR` returns `nullptr`. -/
theorem swapChain.ctorCreate_oldSwapchain_null (dev : device) (width height surface : Nat)
    (replies : SurfaceReplies) (self : swapChain) (ci : VkSwapchainCreateInfoKHR)
    (h : swapChain.ctorCreate dev width height surface replies = .ok (self, ci)) :
    ci.oldSwapchain = 0 := by
  obtain ⟨_, _, _, _, _, _, _, hci⟩ :=
    swapChain.ctorCreate_ok_inv dev width height surface replies self ci h
  rw [hci]
  rfl

/-- C12, the code at the failing input: an existing swapchain object holds chain 5 and
is re-created by assigning it a newly constructed one; the creation request of the new
chain has a null `oldSwapchain`, not 5, and chain 5 is destroyed by the assignment. -/
theorem swapChain_recreation_oldSwapchain_null :
    ∃ temp ci,
      swapChain.ctorCreate { dev := 1, physicalDevice_ := 2 } 800 600 3 sampleSurfaceReplies =
        .ok (temp, ci) ∧
      ci.oldSwapchain = 0 ∧
      (swapChain.moveAssign
        { toResource := { value_ := 5, ownsResource := true, dev_ := 1 }, width_ := 640,
          height_ := 480, swapchainImages := [11, 12], swapchainViews := [13, 14] }
        temp []).2.2 = [{ type := .VkSwapchainKHR, dev := 1, value := 5 }] := by
  refine ⟨_, _, swapChain.ctorCreate_ok _ 800 600 3 sampleSurfaceReplies rfl rfl rfl rfl, rfl, ?_⟩
  decide

/-- The driver calls of a log extended by further destructor invocations. -/
theorem driverCalls_append (l1 l2 : List DestroyCall) :
    driverCalls (l1 ++ l2) = driverCalls l1 ++ driverCalls l2 := by
  simp [driverCalls]

/-- The driver calls made when the wrapper of a chain gives up its handle: one call
destroying the chain if it owns a non-null handle, none otherwise. -/
theorem driverCalls_chain_dtor (r : resource .VkSwapchainKHR) (log : List DestroyCall) :
    driverCalls (r.dtor log) =
      driverCalls log ++
        (if r.ownsResource = true ∧ r.value_ ≠ 0 then [VkCall.vkDestroySwapchainKHR r.dev_ r.value_]
         else []) := by
  unfold resource.dtor
  by_cases h1 : r.value_ = 0 <;> by_cases h2 : r.ownsResource = true <;>
    simp [h1, h2, driverCalls, DestroyCall.driverCalls, destroy]

/-- C13 as stated fails: the swapchain built from the sample answers has created the
views 31, 32, 33 over its images; destroying it, or assigning another swapchain to it,
makes exactly one driver call, the destruction of chain 9, and no call releasing a
view. -/
theorem swapChain_views_never_released :
    (swapChain.ctor { dev := 1, physicalDevice_ := 2 } 800 600 3 4 sampleSurfaceReplies
        sampleImagesReplies).1 = .ok sampleChain ∧
    VkCall.vkCreateImageView 1 (swapChain.build_images.colorAttachmentView 21) 31 ∈
      (swapChain.ctor { dev := 1, physicalDevice_ := 2 } 800 600 3 4 sampleSurfaceReplies
        sampleImagesReplies).2 ∧
    driverCalls (sampleChain.dtor []) = [.vkDestroySwapchainKHR 1 9] ∧
    (driverCalls (sampleChain.dtor [])).count (.vkDestroyImageView 1 31) = 0 ∧
    driverCalls (sampleChain.moveAssign
        { toResource := resource.ctorDefault, width_ := 0, height_ := 0, swapchainImages := [],
          swapchainViews := [] } []).2.2 = [.vkDestroySwapchainKHR 1 9] ∧
    (driverCalls (sampleChain.moveAssign
        { toResource := resource.ctorDefault, width_ := 0, height_ := 0, swapchainImages := [],
          swapchainViews := [] } []).2.2).count (.vkDestroyImageView 1 31) = 0 := by
  refine ⟨rfl, by decide, by decide, by decide, by decide, by decide⟩

/-- C13 amended: destroying a swapchain object, or assigning another one to it, makes
exactly one driver call, the destruction of its chain, when it owns a non-null chain
handle, and none otherwise; no call releasing a view is ever among them, and the view
handles the object held are dropped by the assignment without being released. -/
theorem swapChain_release_calls (self rhs : swapChain) (log : List DestroyCall)
    (d v : Nat) :
    driverCalls (self.dtor log) =
      driverCalls log ++
        (if self.toResource.ownsResource = true ∧ self.toResource.value_ ≠ 0 then
          [VkCall.vkDestroySwapchainKHR self.toResource.dev_ self.toResource.value_]
         else []) ∧
    driverCalls (self.moveAssign rhs log).2.2 = driverCalls (self.dtor log) ∧
    (VkCall.vkDestroyImageView d v ∈ driverCalls (self.dtor log) ↔
      VkCall.vkDestroyImageView d v ∈ driverCalls log) ∧
    (self.moveAssign rhs log).1.swapchainViews = rhs.swapchainViews := by
  have h1 := driverCalls_chain_dtor self.toResource log
  refine ⟨h1, rfl, ?_, rfl⟩
  unfold swapChain.dtor
  rw [h1]
  by_cases hc : self.toResource.ownsResource = true ∧ self.toResource.value_ ≠ 0
  · rw [if_pos hc]
    simp
  · rw [if_neg hc]
    simp


/-- The driver calls made when the wrapper of an instance gives up its handle: at most
the destruction of that instance. -/
theorem driverCalls_instance_dtor (r : resource .VkInstance) :
    driverCalls (r.dtor []) =
      (if r.ownsResource = true ∧ r.value_ ≠ 0 then [VkCall.vkDestroyInstance r.value_]
       else []) := by
  unfold resource.dtor
  by_cases h1 : r.value_ = 0 <;> by_cases h2 : r.ownsResource = true <;>
    simp [h1, h2, driverCalls, DestroyCall.driverCalls, destroy]

/-- C21 as stated fails: when enumeration succeeds and reports zero devices, the
exception raised is `std::runtime_error("no Vulkan devices found")`, whose message is
not "no compatible device found". -/
theorem instance_no_device_message :
    (instance_.ctor "app" sampleNoDeviceReplies).1 =
      .error (.runtime_error "no Vulkan devices found") ∧
    (Exception.runtime_error "no Vulkan devices found").message ≠
      "no compatible device found" := by
  refine ⟨rfl, ?_⟩
  decide

/-- C21 amended: when the first device enumeration succeeds and reports zero devices,
the constructor throws the plain `std::runtime_error("no Vulkan devices found")`, which
is not a `vku::error`, and neither a device creation nor a queue fetch is among the
driver calls made; when the enumeration returns a non-zero status, `error(status)` is
thrown instead. -/
theorem instance_no_device (name : String) (replies : InstanceReplies) :
    (replies.countErr = 0 → replies.gpuCount = 0 →
      (instance_.ctor name replies).1 = .error (.runtime_error "no Vulkan devices found") ∧
      (∀ err : VkResult, (instance_.ctor name replies).1 ≠ .error (.error err)) ∧
      (∀ pd ci d, VkCall.vkCreateDevice pd ci d ∉ (instance_.ctor name replies).2) ∧
      (∀ d f i q, VkCall.vkGetDeviceQueue d f i q ∉ (instance_.ctor name replies).2)) ∧
    (replies.countErr ≠ 0 →
      (instance_.ctor name replies).1 = .error (.error replies.countErr)) ∧
    (replies.countErr = 0 → replies.gpuCount ≠ 0 → replies.enumErr ≠ 0 →
      (instance_.ctor name replies).1 = .error (.error replies.enumErr)) := by
  have hcalls : ∀ (r : resource .VkInstance) (c : VkCall), c ∈ driverCalls (r.dtor []) →
      c = VkCall.vkDestroyInstance r.value_ := by
    intro r c hc
    rw [driverCalls_instance_dtor] at hc
    by_cases h : r.ownsResource = true ∧ r.value_ ≠ 0
    · rw [if_pos h] at hc
      simpa using hc
    · rw [if_neg h] at hc
      simp at hc
  refine ⟨?_, ?_, ?_⟩
  · intro h1 h2
    have hres : instance_.ctor name replies =
        (.error (.runtime_error "no Vulkan devices found"),
         driverCalls ((⟨replies.createInstance.handle, true, 0⟩ : resource .VkInstance).dtor
           [])) := by
      simp [instance_.ctor, resource.ctorDevice, create, h1, h2]
    rw [hres]
    refine ⟨rfl, ?_, ?_, ?_⟩
    · intro err h
      simp at h
    · intro pd ci d hm
      have := hcalls _ _ hm
      simp at this
    · intro d f i q hm
      have := hcalls _ _ hm
      simp at this
  · intro h1
    simp [instance_.ctor, resource.ctorDevice, create, h1]
  · intro h1 h2 h3
    simp [instance_.ctor, resource.ctorDevice, create, h1, h2, h3]

/-- C21 amended, at concrete inputs: with no device reported the constructor throws the
plain runtime error, and with status `VK_ERROR_INITIALIZATION_FAILED` from the
enumeration it throws that status. -/
theorem instance_no_device_witness :
    (instance_.ctor "app" sampleNoDeviceReplies).1 =
      .error (.runtime_error "no Vulkan devices found") ∧
    (instance_.ctor "app" { sampleNoDeviceReplies with countErr := -3 }).1 =
      .error (.error (-3)) :=
  ⟨((instance_no_device "app" sampleNoDeviceReplies).1 rfl rfl).1,
   (instance_no_device "app" { sampleNoDeviceReplies with countErr := -3 }).2.1 (by decide)⟩


/-- The family search started at index `i`: it ends between `i` and `i` plus the number
of families left, every family it passed lacks the graphics bit, and when it stops
before the end the family it stops at has the graphics bit. -/
theorem instance_.graphicsQueueIndex_loop_spec :
    ∀ (l : List VkQueueFamilyProperties) (i : Nat),
      i ≤ instance_.graphicsQueueIndex.loop l i ∧
      instance_.graphicsQueueIndex.loop l i ≤ i + l.length ∧
      (∀ j p, l[j]? = some p → i + j < instance_.graphicsQueueIndex.loop l i →
        ¬ hasGraphics p) ∧
      (instance_.graphicsQueueIndex.loop l i < i + l.length →
        ∃ p, l[instance_.graphicsQueueIndex.loop l i - i]? = some p ∧ hasGraphics p) := by
  intro l
  induction l with
  | nil =>
    intro i
    simp [instance_.graphicsQueueIndex.loop]
  | cons props rest ih =>
    intro i
    simp only [instance_.graphicsQueueIndex.loop]
    by_cases hg : props.queueFlags &&& VK_QUEUE_GRAPHICS_BIT ≠ 0
    · rw [if_pos hg]
      refine ⟨le_refl _, by omega, ?_, ?_⟩
      · intro j p _ hlt
        omega
      · intro _
        exact ⟨props, by simp, hg⟩
    · rw [if_neg hg]
      obtain ⟨h1, h2, h3, h4⟩ := ih (i + 1)
      refine ⟨by omega, by simp only [List.length_cons]; omega, ?_, ?_⟩
      · intro j p hj hlt
        cases j with
        | zero =>
          simp only [List.getElem?_cons_zero, Option.some.injEq] at hj
          subst hj
          exact hg
        | succ j =>
          simp only [List.getElem?_cons_succ] at hj
          exact h3 j p hj (by omega)
      · intro hlt
        obtain ⟨p, hp, hgp⟩ := h4 (by simp only [List.length_cons] at hlt; omega)
        refine ⟨p, ?_, hgp⟩
        have hidx : instance_.graphicsQueueIndex.loop rest (i + 1) - i =
            (instance_.graphicsQueueIndex.loop rest (i + 1) - (i + 1)) + 1 := by omega
        rw [hidx, List.getElem?_cons_succ]
        exact hp

/-- C24: the queue family index chosen by the constructor is the lowest index of a
family whose flags include the graphics bit, and equals the number of families when no
family has it; whenever the enumeration of devices succeeds with at least one device,
the device creation call is made with that index, and when the driver accepts it the
constructor ends normally, having fetched the queue of that index: the constructor
itself raises no error for an index past the last family. -/
theorem instance_graphics_queue_choice (name : String) (replies : InstanceReplies) :
    instance_.graphicsQueueIndex replies.queueProps ≤ replies.queueProps.length ∧
    (∀ j p, replies.queueProps[j]? = some p →
      j < instance_.graphicsQueueIndex replies.queueProps → ¬ hasGraphics p) ∧
    (instance_.graphicsQueueIndex replies.queueProps < replies.queueProps.length →
      ∃ p, replies.queueProps[instance_.graphicsQueueIndex replies.queueProps]? = some p ∧
        hasGraphics p) ∧
    ((∀ p, p ∈ replies.queueProps → ¬ hasGraphics p) →
      instance_.graphicsQueueIndex replies.queueProps = replies.queueProps.length) ∧
    (replies.countErr = 0 → replies.gpuCount ≠ 0 → replies.enumErr = 0 →
      (∃ pd, VkCall.vkCreateDevice pd
          (instance_.deviceCreateInfo (instance_.graphicsQueueIndex replies.queueProps))
          replies.createDevice.handle ∈ (instance_.ctor name replies).2) ∧
      (instance_.deviceCreateInfo (instance_.graphicsQueueIndex replies.queueProps)).pQueueCreateInfos.map
          VkDeviceQueueCreateInfo.queueFamilyIndex =
        [instance_.graphicsQueueIndex replies.queueProps] ∧
      (replies.createDevice.err = 0 →
        (∃ inst, (instance_.ctor name replies).1 = .ok inst) ∧
        VkCall.vkGetDeviceQueue replies.createDevice.handle
          (instance_.graphicsQueueIndex replies.queueProps) 0 replies.queue ∈
          (instance_.ctor name replies).2)) := by
  obtain ⟨_, h2, h3, h4⟩ := instance_.graphicsQueueIndex_loop_spec replies.queueProps 0
  unfold instance_.graphicsQueueIndex
  refine ⟨by omega, ?_, ?_, ?_, ?_⟩
  · intro j p hj hlt
    exact h3 j p hj (by omega)
  · intro hlt
    obtain ⟨p, hp, hg⟩ := h4 (by omega)
    exact ⟨p, by simpa using hp, hg⟩
  · intro hnone
    by_contra hne
    obtain ⟨p, hp, hg⟩ := h4 (by omega)
    exact hnone p (List.getElem?_mem hp) hg
  · intro e1 e2 e3
    refine ⟨?_, rfl, ?_⟩
    · refine ⟨((replies.physicalDevices.take replies.gpuCount ++
        List.replicate (replies.gpuCount -
          (replies.physicalDevices.take replies.gpuCount).length) 0).getD 0 0), ?_⟩
      by_cases e4 : replies.createDevice.err = 0
      · simp [instance_.ctor, resource.ctorDevice, create, e1, e2, e3, e4,
          instance_.graphicsQueueIndex]
      · simp [instance_.ctor, resource.ctorDevice, create, e1, e2, e3, e4,
          instance_.graphicsQueueIndex]
    · intro e4
      constructor
      · simp [instance_.ctor, resource.ctorDevice, create, e1, e2, e3, e4]
      · simp [instance_.ctor, resource.ctorDevice, create, e1, e2, e3, e4,
          instance_.graphicsQueueIndex]

/-- C24 at concrete inputs: with two families, neither of them a graphics family, the
index chosen is 2, the device is created with it and the constructor ends normally. -/
theorem instance_graphics_queue_choice_witness :
    instance_.graphicsQueueIndex sampleNoGraphicsReplies.queueProps = 2 ∧
    (∃ inst, (instance_.ctor "app" sampleNoGraphicsReplies).1 = .ok inst) ∧
    VkCall.vkGetDeviceQueue 9 2 0 10 ∈ (instance_.ctor "app" sampleNoGraphicsReplies).2 :=
  ⟨(instance_graphics_queue_choice "app" sampleNoGraphicsReplies).2.2.2.1 (by decide),
   (((instance_graphics_queue_choice "app" sampleNoGraphicsReplies).2.2.2.2 rfl (by decide)
      rfl).2.2 rfl).1,
   (((instance_graphics_queue_choice "app" sampleNoGraphicsReplies).2.2.2.2 rfl (by decide)
      rfl).2.2 rfl).2⟩


/-- Property flags that contain all of `q` contain every bitwise subset `p` of `q`. -/
theorem device.flags_superset_mono (flags p q : Nat) (hsub : p &&& q = p)
    (h : flags &&& q = q) : flags &&& p = p := by
  rw [← hsub, ← Nat.and_assoc, Nat.and_comm flags p, Nat.and_assoc, h]

/-- C22: `getMemoryType` is monotone in the required flags: when `p` is a bitwise subset
of `q`, the result for `p` is at most the result for `q`, the sentinel `0xFFFFFFFF`
being the largest; with no flag required and a non-zero 32-bit `typeBits` the result is
the index of the least significant set bit of `typeBits`; with `typeBits = 0` it is the
sentinel. -/
theorem device_getMemoryType_monotone (props : VkPhysicalDeviceMemoryProperties)
    (typeBits p q : Nat) :
    (p &&& q = p →
      device.getMemoryType props typeBits p ≤ device.getMemoryType props typeBits q) ∧
    (typeBits ≠ 0 → typeBits < 2 ^ 32 →
      device.getMemoryType props typeBits 0 < 32 ∧
      typeBits.testBit (device.getMemoryType props typeBits 0) = true ∧
      ∀ j, j < device.getMemoryType props typeBits 0 → typeBits.testBit j = false) ∧
    device.getMemoryType props 0 p = 0xFFFFFFFF := by
  refine ⟨?_, ?_, ?_⟩
  · intro hsub
    unfold device.getMemoryType
    rcases device.getMemoryType_loop_spec props typeBits q 32 0 rfl with
      ⟨hq1, _, hq3, _⟩ | ⟨hq1, _⟩
    · rcases device.getMemoryType_loop_spec props typeBits p 32 0 rfl with
        ⟨_, _, _, hp4⟩ | ⟨_, hp2⟩
      · by_contra hlt
        have hqp : device.qualifies props typeBits p
            (device.getMemoryType.loop props typeBits q 32 0) :=
          ⟨hq3.1, device.flags_superset_mono _ p q hsub hq3.2⟩
        exact hp4 _ (Nat.zero_le _) (by omega) hqp
      · exfalso
        have hqp : device.qualifies props typeBits p
            (device.getMemoryType.loop props typeBits q 32 0) :=
          ⟨hq3.1, device.flags_superset_mono _ p q hsub hq3.2⟩
        exact hp2 _ (Nat.zero_le _) hq1 hqp
    · rcases device.getMemoryType_loop_spec props typeBits p 32 0 rfl with
        ⟨hp1, _, _, _⟩ | ⟨hp1, _⟩
      · omega
      · omega
  · intro hne hlt
    unfold device.getMemoryType
    rcases device.getMemoryType_loop_spec props typeBits 0 32 0 rfl with
      ⟨h1, _, h3, h4⟩ | ⟨_, h2⟩
    · refine ⟨h1, h3.1, ?_⟩
      intro j hj
      have hnq := h4 j (Nat.zero_le j) hj
      cases hb : typeBits.testBit j with
      | false => rfl
      | true =>
        exact absurd ⟨hb, by simp⟩ hnq
    · exfalso
      obtain ⟨i, hi⟩ := Nat.ne_zero_implies_bit_true hne
      have hge := Nat.testBit_implies_ge hi
      have hi32 : i < 32 := by
        by_contra hcon
        have : 2 ^ 32 ≤ 2 ^ i := Nat.pow_le_pow_right (by decide) (by omega)
        omega
      exact h2 i (Nat.zero_le i) hi32 ⟨hi, by simp⟩
  · unfold device.getMemoryType
    rcases device.getMemoryType_loop_spec props 0 p 32 0 rfl with
      ⟨_, _, h3, _⟩ | ⟨h1, _⟩
    · exfalso
      have := h3.1
      simp at this
    · exact h1

/-- C22 at concrete inputs: with memory type 1 carrying flag 2 only and memory type 2
carrying flags 2 and 4, requiring flag 2 gives an index at most the one obtained when
requiring flags 2 and 4, and requiring nothing with `typeBits = 0b0110` gives index 1,
the lowest set bit. -/
theorem device_getMemoryType_monotone_witness :
    device.getMemoryType
        { memoryTypes := fun i => { propertyFlags := if i = 1 then 2 else if i = 2 then 6 else 0,
                                    heapIndex := 0 } } 6 2 ≤
      device.getMemoryType
        { memoryTypes := fun i => { propertyFlags := if i = 1 then 2 else if i = 2 then 6 else 0,
                                    heapIndex := 0 } } 6 6 ∧
    device.getMemoryType
        { memoryTypes := fun i => { propertyFlags := if i = 1 then 2 else if i = 2 then 6 else 0,
                                    heapIndex := 0 } } 6 0 < 32 :=
  ⟨(device_getMemoryType_monotone
      { memoryTypes := fun i => { propertyFlags := if i = 1 then 2 else if i = 2 then 6 else 0,
                                  heapIndex := 0 } } 6 2 6).1 (by decide),
   ((device_getMemoryType_monotone
      { memoryTypes := fun i => { propertyFlags := if i = 1 then 2 else if i = 2 then 6 else 0,
                                  heapIndex := 0 } } 6 2 6).2.1 (by decide) (by decide)).1⟩

/-- C23: the present mode resolved depends only on which modes occur in the supported
list: two lists with the same members, in particular two permutations of each other or
a list and the same list without its duplicates, resolve to the same mode; and the
result is always mailbox, immediate or fifo, also for the empty list and for a list in
which fifo does not occur. -/
theorem swapChain_presentMode_set_only (l1 l2 : List VkPresentModeKHR) :
    ((∀ m, m ∈ l1 ↔ m ∈ l2) →
      swapChain.swapchainPresentMode l1 = swapChain.swapchainPresentMode l2) ∧
    (l1.Perm l2 → swapChain.swapchainPresentMode l1 = swapChain.swapchainPresentMode l2) ∧
    swapChain.swapchainPresentMode l1.dedup = swapChain.swapchainPresentMode l1 ∧
    (swapChain.swapchainPresentMode l1 = .VK_PRESENT_MODE_MAILBOX_KHR ∨
      swapChain.swapchainPresentMode l1 = .VK_PRESENT_MODE_IMMEDIATE_KHR ∨
      swapChain.swapchainPresentMode l1 = .VK_PRESENT_MODE_FIFO_KHR) ∧
    swapChain.swapchainPresentMode [] = .VK_PRESENT_MODE_FIFO_KHR ∧
    swapChain.swapchainPresentMode [.VK_PRESENT_MODE_FIFO_RELAXED_KHR] =
      .VK_PRESENT_MODE_FIFO_KHR := by
  have key : ∀ a b : List VkPresentModeKHR, (∀ m, m ∈ a ↔ m ∈ b) →
      swapChain.swapchainPresentMode a = swapChain.swapchainPresentMode b := by
    intro a b h
    unfold swapChain.swapchainPresentMode
    rw [swapChain.swapchainPresentMode_loop_spec a _ (by decide),
      swapChain.swapchainPresentMode_loop_spec b _ (by decide)]
    simp only [h]
  refine ⟨key l1 l2, fun hp => key l1 l2 (fun m => hp.mem_iff), ?_, ?_, by decide, by decide⟩
  · exact key _ _ (fun m => List.mem_dedup)
  · unfold swapChain.swapchainPresentMode
    rw [swapChain.swapchainPresentMode_loop_spec l1 _ (by decide)]
    split_ifs <;> simp

/-- C23 at concrete inputs: {immediate, fifo, immediate} and {fifo, immediate} resolve
to the same mode. -/
theorem swapChain_presentMode_set_only_witness :
    swapChain.swapchainPresentMode
        [.VK_PRESENT_MODE_IMMEDIATE_KHR, .VK_PRESENT_MODE_FIFO_KHR,
         .VK_PRESENT_MODE_IMMEDIATE_KHR] =
      swapChain.swapchainPresentMode
        [.VK_PRESENT_MODE_FIFO_KHR, .VK_PRESENT_MODE_IMMEDIATE_KHR] :=
  (swapChain_presentMode_set_only
    [.VK_PRESENT_MODE_IMMEDIATE_KHR, .VK_PRESENT_MODE_FIFO_KHR, .VK_PRESENT_MODE_IMMEDIATE_KHR]
    [.VK_PRESENT_MODE_FIFO_KHR, .VK_PRESENT_MODE_IMMEDIATE_KHR]).1
    (fun m => by cases m <;> decide)

/-- C25: after `a = move(b)` on distinct buffer objects, `a` holds the device, buffer
handle, memory handle and size of `b`; `b` holds null device, buffer and memory handles
and owns nothing; the owns-flag of `a` is the one it had before, not the one of `b`; the
assignment makes no driver call, so the buffer `a` held before is not destroyed; and `b`
would not destroy the moved buffer, so at most `a` owns it. -/
theorem buffer_moveAssign_post (a b : buffer) (calls : List VkCall) :
    (buffer.moveAssign a b calls).1.dev = b.dev ∧
    (buffer.moveAssign a b calls).1.buf_ = b.buf_ ∧
    (buffer.moveAssign a b calls).1.mem = b.mem ∧
    (buffer.moveAssign a b calls).1.size_ = b.size_ ∧
    (buffer.moveAssign a b calls).2.1.dev = 0 ∧
    (buffer.moveAssign a b calls).2.1.buf_ = 0 ∧
    (buffer.moveAssign a b calls).2.1.mem = 0 ∧
    (buffer.moveAssign a b calls).2.1.ownsBuffer = false ∧
    (buffer.moveAssign a b calls).1.ownsBuffer = a.ownsBuffer ∧
    (buffer.moveAssign a b calls).2.2 = calls ∧
    (buffer.moveAssign a b calls).2.1.dtor (buffer.moveAssign a b calls).2.2 = calls := by
  refine ⟨rfl, rfl, rfl, rfl, rfl, rfl, rfl, rfl, rfl, rfl, ?_⟩
  simp [buffer.moveAssign, buffer.dtor]


end vku
